import Mathlib

/-!
Verification development for the security-valuator repository.

The embedding below models, in Lean, the repository code in
`src/data_provider/intrinio_data.py` and `src/support/financial_cache.py`.
Python dictionaries become association lists with in-place update
(`PyDict`), the module-level cache singleton becomes an explicitly
threaded `FinancialCache` value, and the module-level Intrinio SDK
clients become an `ApiEnv` record of functions.  Each data-provider
operation returns its result together with the updated cache and the
number of external API invocations it performed.  Python exceptions
become `Except` values: `PyExn` for exceptions thrown by the external
SDK, `ProviderErr` for what a caller of the provider observes.
-/

/-- Calendar date, modelling a Python `datetime.date` value. -/
structure Date where
  year : Nat
  month : Nat
  day : Nat
deriving DecidableEq, Repr

/-- Association-list dictionary mirroring a Python `dict`: inserting an
existing key updates its value in place, lookups scan from the front. -/
def PyDict (α β : Type) : Type := List (α × β)

instance (α β : Type) [DecidableEq α] [DecidableEq β] : DecidableEq (PyDict α β) :=
  inferInstanceAs (DecidableEq (List (α × β)))

/-- Assignment `d[k] = v` on a Python dict: update in place if the key exists,
append at the end otherwise. -/
def PyDict.insert {α β : Type} [DecidableEq α] : PyDict α β → α → β → PyDict α β
  | [], k, v => [(k, v)]
  | (k₁, v₁) :: rest, k, v =>
    if k₁ = k then (k₁, v) :: rest else (k₁, v₁) :: PyDict.insert rest k v

/-- Key lookup on a Python dict, `none` when the key is absent. -/
def PyDict.lookup {α β : Type} [DecidableEq α] : PyDict α β → α → Option β
  | [], _ => none
  | (k₁, v₁) :: rest, k => if k₁ = k then some v₁ else PyDict.lookup rest k

/-- The keys of a Python dict, in insertion order. -/
def PyDict.keys {α β : Type} (d : PyDict α β) : List α := d.map Prod.fst

/-- One record of `api_response.stock_prices` in the Intrinio security
price response. -/
structure StockPrice where
  date : Date
  close : Int
deriving DecidableEq, Repr

/-- Raw response of `security_api.get_security_stock_prices`. -/
structure SecurityPriceResponse where
  stock_prices : List StockPrice
deriving DecidableEq, Repr

/-- One record of `api_response.historical_data` in the Intrinio company
metric response. -/
structure HistoricalDataPoint where
  date : Date
  value : Int
deriving DecidableEq, Repr

/-- Raw response of `company_api.get_company_historical_data`. -/
structure MetricResponse where
  historical_data : List HistoricalDataPoint
deriving DecidableEq, Repr

/-- The `data_tag` object carried by a standardized financial record. -/
structure DataTag where
  tag : String
deriving DecidableEq, Repr

/-- One line item of `statement.standardized_financials`. -/
structure StandardizedFinancial where
  data_tag : DataTag
  value : Int
deriving DecidableEq, Repr

/-- Raw response of `fundamentals_api.get_fundamental_standardized_financials`. -/
structure StatementResponse where
  standardized_financials : List StandardizedFinancial
deriving DecidableEq, Repr

/-- A Python object stored in the financial cache: either a plain string
or one of the three raw API response objects. -/
inductive PyObj where
  | str (s : String)
  | priceResp (r : SecurityPriceResponse)
  | metricResp (r : MetricResponse)
  | stmtResp (r : StatementResponse)
deriving DecidableEq, Repr

/-- An exception raised by the external Intrinio SDK call:
`ApiException` or any other unexpected exception. -/
inductive PyExn where
  | apiException (info : String)
  | otherException (info : String)
deriving DecidableEq, Repr

/-- An error observed by a caller of the data provider.  `dataError` and
`validationError` model the exceptions of `exception.exceptions` raised
by `intrinio_data.py` (message plus wrapped cause); `keyError` models an
uncaught Python `KeyError` from a dictionary lookup; `attributeError`
models an uncaught `AttributeError` from reading a field off a
wrongly-typed cached object; `raised` models any other exception that
propagates out of the provider uncaught. -/
inductive ProviderErr where
  | dataError (msg : String) (cause : Option PyExn)
  | validationError (msg : String) (cause : Option PyExn)
  | keyError (year : Int)
  | attributeError (missing : String)
  | raised (e : PyExn)
deriving DecidableEq, Repr

/-- The disk cache of `financial_cache.py`, modelled as its key-value
content. -/
def FinancialCache : Type := PyDict String PyObj

instance : DecidableEq FinancialCache :=
  inferInstanceAs (DecidableEq (List (String × PyObj)))

/-- Method `FinancialCache.write` (financial_cache.py lines 55-74): skips the
write when the key or the value is `None` or the empty string, stores
the value under the key otherwise. -/
def FinancialCache.write (c : FinancialCache) (key : Option String)
    (value : Option PyObj) : FinancialCache :=
  match key, value with
  | some k, some v =>
    if k = "" ∨ v = PyObj.str "" then c else PyDict.insert c k v
  | _, _ => c

/-- Method `FinancialCache.read` (financial_cache.py lines 76-94): returns the
stored value, or `none` (Python `None`) when the key is absent; the
`KeyError` of the underlying store is caught inside. -/
def FinancialCache.read (c : FinancialCache) (key : Option String) : Option PyObj :=
  match key with
  | some k => PyDict.lookup c k
  | none => none

/-- The external Intrinio SDK endpoints used by `intrinio_data.py`,
passed explicitly so that theorems can quantify over the external
behaviour (the Python module holds them as module-level singletons). -/
structure ApiEnv where
  get_security_stock_prices : String → String → String → Except PyExn SecurityPriceResponse
  get_company_historical_data : String → String → String → String → String → Except PyExn MetricResponse
  get_fundamental_standardized_financials : String → Except PyExn StatementResponse

/-- Result of one data-provider operation: the returned value or error,
the cache as left behind by the operation, and how many external API
invocations the operation performed. -/
structure DPResult (α : Type) where
  result : Except ProviderErr α
  cache : FinancialCache
  apiCalls : Nat

/-- Modelled from the spec: `intrinio_util.date_to_string` (the
`data_provider/intrinio_util.py` module is not part of the provided
sources).  Per the spec it formats a date as an ISO date string such as
`2019-10-01`: decimal year, dash, two-digit month, dash, two-digit
day. -/
def pad2 (n : Nat) : String :=
  if n < 10 then "0" ++ Nat.repr n else Nat.repr n

/-- Modelled from the spec: ISO date formatting, see `pad2`. -/
def date_to_string (d : Date) : String :=
  Nat.repr d.year ++ "-" ++ pad2 d.month ++ "-" ++ pad2 d.day

/-- Modelled from the spec: `intrinio_util.get_fiscal_year_period`
(module not in the provided sources).  Per the spec it converts a
calendar year into the fiscal period date range bounded by calendar
year boundaries, returned as a pair of date strings. -/
def get_fiscal_year_period (year : Int) : String × String :=
  (Int.repr year ++ "-01-01", Int.repr year ++ "-12-31")

/-- Python `str.upper()` (ASCII case mapping), modelled directly on the
character list so that it evaluates by reduction. -/
def str_upper (s : String) : String := ⟨s.data.map Char.toUpper⟩

/-- The constant `INTRINIO_CACHE_PREFIX` of intrinio_data.py line 26. -/
def intrinioCachePfx : String := "intrinio"

/-- Cache key built at intrinio_data.py line 66:
`"%s-%s-%s-%s-%s" % (INTRINIO_CACHE_PREFIX, ticker, start_date_str, end_date_str, "closing-prices")`. -/
def price_cache_key (ticker start_date_str end_date_str : String) : String :=
  intrinioCachePfx ++ "-" ++ ticker ++ "-" ++ start_date_str ++ "-" ++
    end_date_str ++ "-" ++ "closing-prices"

/-- Cache key built at intrinio_data.py line 508:
`"%s-%s-%s-%d-%d-%s-%s" % (INTRINIO_CACHE_PREFIX, "metric", ticker, start_year, end_year, frequency, tag)`. -/
def metric_cache_key (ticker : String) (start_year end_year : Int)
    (frequency tag : String) : String :=
  intrinioCachePfx ++ "-" ++ "metric" ++ "-" ++ ticker ++ "-" ++
    Int.repr start_year ++ "-" ++ Int.repr end_year ++ "-" ++ frequency ++ "-" ++ tag

/-- Cache key built at intrinio_data.py line 436:
`"%s-%s-%s-%s-%s-%d" % (INTRINIO_CACHE_PREFIX, "statement", ticker, statement_name, statement_type, i)`. -/
def statement_cache_key (ticker statement_name statement_type : String)
    (i : Int) : String :=
  intrinioCachePfx ++ "-" ++ "statement" ++ "-" ++ ticker ++ "-" ++
    statement_name ++ "-" ++ statement_type ++ "-" ++ Int.repr i

/-- The loop of intrinio_data.py lines 86-87 building the
date-string-to-close-price dictionary. -/
def build_price_dict : List StockPrice → PyDict String Int → PyDict String Int
  | [], price_dict => price_dict
  | price :: rest, price_dict =>
    build_price_dict rest (price_dict.insert (date_to_string price.date) price.close)

/-- Shared tail of `get_daily_stock_close_prices` (intrinio_data.py
lines 80-89): the zero-record check and the dictionary build, applied
to the response whether it came from the cache or from the API. -/
def prices_finish (ticker start_date_str end_date_str : String)
    (api_response : SecurityPriceResponse) (c : FinancialCache) (calls : Nat) :
    DPResult (PyDict String Int) :=
  if api_response.stock_prices.length = 0 then
    ⟨Except.error (ProviderErr.dataError
      ("No prices returned from Intrinio Security API: (\x27" ++ ticker ++
        "\x27, " ++ start_date_str ++ " - " ++ end_date_str ++ ")") none), c, calls⟩
  else
    ⟨Except.ok (build_price_dict api_response.stock_prices []), c, calls⟩

/-- Function `get_daily_stock_close_prices` (intrinio_data.py lines 29-89). -/
def get_daily_stock_close_prices (env : ApiEnv) (c : FinancialCache)
    (ticker : String) (start_date end_date : Date) : DPResult (PyDict String Int) :=
  let start_date_str := date_to_string start_date
  let end_date_str := date_to_string end_date
  let cache_key := price_cache_key ticker start_date_str end_date_str
  match FinancialCache.read c (some cache_key) with
  | some (PyObj.priceResp api_response) =>
    prices_finish ticker start_date_str end_date_str api_response c 0
  | some _ => ⟨Except.error (ProviderErr.attributeError "stock_prices"), c, 0⟩
  | none =>
    match env.get_security_stock_prices ticker start_date_str end_date_str with
    | Except.ok api_response =>
      prices_finish ticker start_date_str end_date_str api_response
        (FinancialCache.write c (some cache_key) (some (PyObj.priceResp api_response))) 1
    | Except.error (PyExn.apiException info) =>
      ⟨Except.error (ProviderErr.dataError
        ("API Error while reading price data from Intrinio Security API: (\x27" ++
          ticker ++ "\x27, " ++ start_date_str ++ " - " ++ end_date_str ++ ")")
        (some (PyExn.apiException info))), c, 1⟩
    | Except.error (PyExn.otherException info) =>
      ⟨Except.error (ProviderErr.validationError
        ("Unknown Error while reading price data from Intrinio Security API: (\x27" ++
          ticker ++ "\x27, " ++ start_date_str ++ " - " ++ end_date_str ++ ")")
        (some (PyExn.otherException info))), c, 1⟩

/-- Python `range(a, b)`: the integers from `a` (inclusive) to `b`
(exclusive), in increasing order. -/
def int_range (a b : Int) : List Int :=
  (List.range (b - a).toNat).map (fun k : Nat => a + (k : Int))

/-- The loop of intrinio_data.py lines 531-532 building the
year-to-value dictionary from the metric data points. -/
def build_metric_dict : List HistoricalDataPoint → PyDict Int Int → PyDict Int Int
  | [], converted_response => converted_response
  | datapoint :: rest, converted_response =>
    build_metric_dict rest
      (converted_response.insert (Int.ofNat datapoint.date.year) datapoint.value)

/-- Shared tail of `__read_financial_metrics__` (intrinio_data.py lines
524-534): zero-record check and dictionary build, applied to the
response from the cache or from the API. -/
def metrics_finish (ticker : String) (start_year end_year : Int) (tag : String)
    (api_response : MetricResponse) (c : FinancialCache) (calls : Nat) :
    DPResult (PyDict Int Int) :=
  if api_response.historical_data.length = 0 then
    ⟨Except.error (ProviderErr.dataError
      ("No Data returned for (\x27" ++ ticker ++ "\x27, " ++ Int.repr start_year ++
        " - " ++ Int.repr end_year ++ ") -> \x27" ++ tag ++
        "\x27 from Intrinio Company API") none), c, calls⟩
  else
    ⟨Except.ok (build_metric_dict api_response.historical_data []), c, calls⟩

/-- Function `__read_financial_metrics__` (intrinio_data.py lines 455-534). -/
def read_financial_metrics (env : ApiEnv) (c : FinancialCache) (ticker : String)
    (start_year end_year : Int) (tag : String) : DPResult (PyDict Int Int) :=
  let start_date := (get_fiscal_year_period start_year).1
  let end_date := (get_fiscal_year_period end_year).2
  let frequency := "yearly"
  let cache_key := metric_cache_key ticker start_year end_year frequency tag
  match FinancialCache.read c (some cache_key) with
  | some (PyObj.metricResp api_response) =>
    metrics_finish ticker start_year end_year tag api_response c 0
  | some _ => ⟨Except.error (ProviderErr.attributeError "historical_data"), c, 0⟩
  | none =>
    match env.get_company_historical_data ticker tag frequency start_date end_date with
    | Except.ok api_response =>
      metrics_finish ticker start_year end_year tag api_response
        (FinancialCache.write c (some cache_key) (some (PyObj.metricResp api_response))) 1
    | Except.error (PyExn.apiException info) =>
      ⟨Except.error (ProviderErr.dataError
        ("Error retrieving (\x27" ++ ticker ++ "\x27, " ++ Int.repr start_year ++
          " - " ++ Int.repr end_year ++ ") -> \x27" ++ tag ++
          "\x27 from Intrinio Company API")
        (some (PyExn.apiException info))), c, 1⟩
    | Except.error (PyExn.otherException info) =>
      ⟨Except.error (ProviderErr.validationError
        ("Error parsing (\x27" ++ ticker ++ "\x27, " ++ Int.repr start_year ++
          " - " ++ Int.repr end_year ++ ") -> \x27" ++ tag ++
          "\x27 from Intrinio Company API")
        (some (PyExn.otherException info))), c, 1⟩

/-- Function `__read_financial_metric__` (intrinio_data.py lines 537-542): reads
the series for the single year and extracts `metrics[year]`; a missing
year surfaces as an uncaught Python `KeyError`. -/
def read_financial_metric (env : ApiEnv) (c : FinancialCache) (ticker : String)
    (year : Int) (tag : String) : DPResult Int :=
  let r := read_financial_metrics env c ticker year year tag
  match r.result with
  | Except.ok metrics =>
    match metrics.lookup year with
    | some v => ⟨Except.ok v, r.cache, r.apiCalls⟩
    | none => ⟨Except.error (ProviderErr.keyError year), r.cache, r.apiCalls⟩
  | Except.error e => ⟨Except.error e, r.cache, r.apiCalls⟩

/-- Function `get_historical_revenue` (intrinio_data.py lines 92-117). -/
def get_historical_revenue (env : ApiEnv) (c : FinancialCache) (ticker : String)
    (year_from year_to : Int) : DPResult (PyDict Int Int) :=
  read_financial_metrics env c ticker year_from year_to "totalrevenue"

/-- Function `get_historical_fcff` (intrinio_data.py lines 120-159). -/
def get_historical_fcff (env : ApiEnv) (c : FinancialCache) (ticker : String)
    (year_from year_to : Int) : DPResult (PyDict Int Int) :=
  read_financial_metrics env c ticker year_from year_to "freecashflow"

/-- Function `get_diluted_eps` (intrinio_data.py lines 162-186). -/
def get_diluted_eps (env : ApiEnv) (c : FinancialCache) (ticker : String)
    (year : Int) : DPResult Int :=
  read_financial_metric env c ticker year "adjdilutedeps"

/-- Function `get_bookvalue_per_share` (intrinio_data.py lines 189-210). -/
def get_bookvalue_per_share (env : ApiEnv) (c : FinancialCache) (ticker : String)
    (year : Int) : DPResult Int :=
  read_financial_metric env c ticker year "bookvaluepershare"

/-- Function `get_outstanding_diluted_shares` (intrinio_data.py lines 213-241). -/
def get_outstanding_diluted_shares (env : ApiEnv) (c : FinancialCache)
    (ticker : String) (year : Int) : DPResult Int :=
  read_financial_metric env c ticker year "weightedavedilutedsharesos"

/-- Function `__transform_financial_stmt__` (intrinio_data.py lines 344-377):
keeps the line items whose tag passes the filter (all of them when the
filter is Python `None`), building a tag-to-value dictionary. -/
def transform_financial_stmt (std_financials_list : List StandardizedFinancial)
    (tag_filter_list : Option (List String)) : PyDict String Int :=
  transform_go std_financials_list tag_filter_list []
where
  transform_go : List StandardizedFinancial → Option (List String) →
      PyDict String Int → PyDict String Int
    | [], _, results => results
    | financial :: rest, tfl, results =>
      match tfl with
      | none =>
        transform_go rest none (results.insert financial.data_tag.tag financial.value)
      | some l =>
        if financial.data_tag.tag ∈ l then
          transform_go rest (some l) (results.insert financial.data_tag.tag financial.value)
        else
          transform_go rest (some l) results

/-- The per-year loop of `__read_historical_financial_statement__`
(intrinio_data.py lines 432-446), inside the `try`: any exception of an
external call aborts the loop and is reported to the wrapper. -/
def stmt_loop (env : ApiEnv) (ticker statement_name statement_type : String)
    (tag_filter_list : Option (List String)) :
    List Int → FinancialCache → PyDict Int (PyDict String Int) → Nat →
      Except PyExn (PyDict Int (PyDict String Int)) × FinancialCache × Nat
  | [], c, hist_statements, calls => (Except.ok hist_statements, c, calls)
  | i :: rest, c, hist_statements, calls =>
    let satement_name := ticker ++ "-" ++ statement_name ++ "-" ++ Int.repr i ++
      "-" ++ statement_type
    let cache_key := statement_cache_key ticker statement_name statement_type i
    match FinancialCache.read c (some cache_key) with
    | some (PyObj.stmtResp statement) =>
      stmt_loop env ticker statement_name statement_type tag_filter_list rest c
        (hist_statements.insert i
          (transform_financial_stmt statement.standardized_financials tag_filter_list))
        calls
    | some _ => (Except.error (PyExn.otherException "AttributeError"), c, calls)
    | none =>
      match env.get_fundamental_standardized_financials satement_name with
      | Except.ok statement =>
        stmt_loop env ticker statement_name statement_type tag_filter_list rest
          (FinancialCache.write c (some cache_key) (some (PyObj.stmtResp statement)))
          (hist_statements.insert i
            (transform_financial_stmt statement.standardized_financials tag_filter_list))
          (calls + 1)
      | Except.error e => (Except.error e, c, calls + 1)

/-- Function `__read_historical_financial_statement__` (intrinio_data.py lines
380-452): uppercases the ticker, runs the per-year loop over
`range(year_from, year_to + 1)`, and wraps an `ApiException` into a
`DataError`; any other exception escapes uncaught. -/
def read_historical_financial_statement (env : ApiEnv) (c : FinancialCache)
    (ticker statement_name : String) (year_from year_to : Int)
    (tag_filter_list : Option (List String)) :
    DPResult (PyDict Int (PyDict String Int)) :=
  let ticker := str_upper ticker
  let statement_type := "FY"
  match stmt_loop env ticker statement_name statement_type tag_filter_list
      (int_range year_from (year_to + 1)) c [] 0 with
  | (Except.ok hist_statements, c₁, calls) => ⟨Except.ok hist_statements, c₁, calls⟩
  | (Except.error (PyExn.apiException info), c₁, calls) =>
    ⟨Except.error (ProviderErr.dataError
      ("Error retrieving (\x27" ++ ticker ++ "\x27, " ++ Int.repr year_from ++
        " - " ++ Int.repr year_to ++ ") -> \x27" ++ statement_name ++
        "\x27 from Intrinio Fundamentals API")
      (some (PyExn.apiException info))), c₁, calls⟩
  | (Except.error e, c₁, calls) => ⟨Except.error (ProviderErr.raised e), c₁, calls⟩

/-- Function `get_historical_income_stmt` (intrinio_data.py lines 244-275). -/
def get_historical_income_stmt (env : ApiEnv) (c : FinancialCache)
    (ticker : String) (year_from year_to : Int)
    (tag_filter_list : Option (List String)) :
    DPResult (PyDict Int (PyDict String Int)) :=
  read_historical_financial_statement env c (str_upper ticker) "income_statement"
    year_from year_to tag_filter_list

/-- Function `get_historical_balance_sheet` (intrinio_data.py lines 278-308). -/
def get_historical_balance_sheet (env : ApiEnv) (c : FinancialCache)
    (ticker : String) (year_from year_to : Int)
    (tag_filter_list : Option (List String)) :
    DPResult (PyDict Int (PyDict String Int)) :=
  read_historical_financial_statement env c (str_upper ticker) "balance_sheet_statement"
    year_from year_to tag_filter_list

/-- Function `get_historical_cashflow_stmt` (intrinio_data.py lines 311-341). -/
def get_historical_cashflow_stmt (env : ApiEnv) (c : FinancialCache)
    (ticker : String) (year_from year_to : Int)
    (tag_filter_list : Option (List String)) :
    DPResult (PyDict Int (PyDict String Int)) :=
  read_historical_financial_statement env c (str_upper ticker) "cash_flow_statement"
    year_from year_to tag_filter_list

/-- Structural model of the digit characters of a natural number, used
to reason about `Nat.repr`. -/
def natDigs (n : Nat) : List Char :=
  if h : n < 10 then [Nat.digitChar n]
  else natDigs (n / 10) ++ [Nat.digitChar (n % 10)]
decreasing_by
  exact Nat.div_lt_self (by omega) (by omega)

theorem natDigs_lt {n : Nat} (h : n < 10) : natDigs n = [Nat.digitChar n] := by
  rw [natDigs, dif_pos h]

theorem natDigs_ge {n : Nat} (h : ¬ n < 10) :
    natDigs n = natDigs (n / 10) ++ [Nat.digitChar (n % 10)] := by
  conv_lhs => rw [natDigs]
  rw [dif_neg h]

theorem toDigitsCore_eq_natDigs :
    ∀ (fuel n : Nat) (acc : List Char), n < fuel →
      Nat.toDigitsCore 10 fuel n acc = natDigs n ++ acc := by
  intro fuel
  induction fuel with
  | zero => intro n acc h; omega
  | succ fuel ih =>
    intro n acc h
    rw [Nat.toDigitsCore]
    by_cases h10 : n / 10 = 0
    · have hlt : n < 10 := by omega
      rw [if_pos h10, natDigs_lt hlt, Nat.mod_eq_of_lt hlt]
      rfl
    · have hge : ¬ n < 10 := by omega
      have hlt1 : n / 10 < n := Nat.div_lt_self (by omega) (by omega)
      have hdiv : n / 10 < fuel := by omega
      rw [if_neg h10, ih (n / 10) _ hdiv, natDigs_ge hge, List.append_assoc]
      rfl

theorem natRepr_data (n : Nat) : (Nat.repr n).data = natDigs n := by
  show (List.asString (Nat.toDigitsCore 10 (n + 1) n [])).data = natDigs n
  rw [toDigitsCore_eq_natDigs (n + 1) n [] (by omega), List.append_nil]
  rfl

theorem digitChar_ne_dash : ∀ m, m < 10 → Nat.digitChar m ≠ '-' := by decide

theorem digitChar_inj10 : ∀ a, a < 10 → ∀ b, b < 10 →
    Nat.digitChar a = Nat.digitChar b → a = b := by decide

theorem natDigs_no_dash (n : Nat) : '-' ∉ natDigs n := by
  induction n using Nat.strong_induction_on with
  | _ n ih =>
    by_cases h : n < 10
    · rw [natDigs_lt h]
      intro hmem
      exact digitChar_ne_dash n h (List.mem_singleton.mp hmem).symm
    · rw [natDigs_ge h]
      intro hmem
      rcases List.mem_append.mp hmem with h' | h'
      · exact ih (n / 10) (Nat.div_lt_self (by omega) (by omega)) h'
      · exact digitChar_ne_dash (n % 10) (Nat.mod_lt n (by omega))
          (List.mem_singleton.mp h').symm

theorem natDigs_ne_nil (n : Nat) : natDigs n ≠ [] := by
  by_cases h : n < 10
  · rw [natDigs_lt h]; simp
  · rw [natDigs_ge h]; simp

theorem natDigs_inj : ∀ (m : Nat), ∀ (n : Nat), natDigs m = natDigs n → m = n := by
  intro m
  induction m using Nat.strong_induction_on with
  | _ m ih =>
    intro n h
    by_cases hm : m < 10 <;> by_cases hn : n < 10
    · rw [natDigs_lt hm, natDigs_lt hn] at h
      exact digitChar_inj10 m hm n hn (List.singleton_injective h)
    · rw [natDigs_lt hm, natDigs_ge hn] at h
      have hlen := congrArg List.length h
      rw [List.length_append] at hlen
      simp only [List.length_singleton] at hlen
      have : (natDigs (n / 10)).length = 0 := by omega
      exact absurd (List.eq_nil_of_length_eq_zero this) (natDigs_ne_nil (n / 10))
    · rw [natDigs_ge hm, natDigs_lt hn] at h
      have hlen := congrArg List.length h
      rw [List.length_append] at hlen
      simp only [List.length_singleton] at hlen
      have : (natDigs (m / 10)).length = 0 := by omega
      exact absurd (List.eq_nil_of_length_eq_zero this) (natDigs_ne_nil (m / 10))
    · rw [natDigs_ge hm, natDigs_ge hn] at h
      have hrev := congrArg List.reverse h
      simp only [List.reverse_append, List.reverse_cons, List.reverse_nil,
        List.nil_append, List.singleton_append, List.cons.injEq] at hrev
      have hd : m % 10 = n % 10 :=
        digitChar_inj10 (m % 10) (Nat.mod_lt m (by omega)) (n % 10)
          (Nat.mod_lt n (by omega)) hrev.1
      have hq : m / 10 = n / 10 :=
        ih (m / 10) (Nat.div_lt_self (by omega) (by omega)) (n / 10)
          (List.reverse_injective hrev.2)
      have h1 := Nat.div_add_mod m 10
      have h2 := Nat.div_add_mod n 10
      omega

theorem natRepr_inj {m n : Nat} (h : Nat.repr m = Nat.repr n) : m = n := by
  apply natDigs_inj
  rw [← natRepr_data, ← natRepr_data, h]

theorem natRepr_no_dash (n : Nat) : '-' ∉ (Nat.repr n).data := by
  rw [natRepr_data]; exact natDigs_no_dash n

theorem intRepr_of_nonneg (i : Int) (h : 0 ≤ i) :
    Int.repr i = Nat.repr i.toNat := by
  cases i with
  | ofNat m => rfl
  | negSucc m => exact absurd h (by simp)

theorem intRepr_no_dash (i : Int) (h : 0 ≤ i) : '-' ∉ (Int.repr i).data := by
  rw [intRepr_of_nonneg i h]; exact natRepr_no_dash i.toNat

theorem intRepr_inj : ∀ (i : Int), ∀ (j : Int), Int.repr i = Int.repr j → i = j := by
  intro i j h
  cases i with
  | ofNat m =>
    cases j with
    | ofNat n =>
      have : Nat.repr m = Nat.repr n := h
      rw [natRepr_inj this]
    | negSucc n =>
      have hd := congrArg String.data h
      have hdash : '-' ∈ (Int.repr (Int.negSucc n)).data := by
        show '-' ∈ ("-" ++ Nat.repr (n + 1)).data
        rw [String.data_append]
        exact List.mem_append.mpr (Or.inl (by decide))
      rw [← h] at hdash
      exact absurd hdash (natRepr_no_dash m)
  | negSucc m =>
    cases j with
    | ofNat n =>
      have hdash : '-' ∈ (Int.repr (Int.negSucc m)).data := by
        show '-' ∈ ("-" ++ Nat.repr (m + 1)).data
        rw [String.data_append]
        exact List.mem_append.mpr (Or.inl (by decide))
      rw [h] at hdash
      exact absurd hdash (natRepr_no_dash n)
    | negSucc n =>
      have h1 : '-' :: (Nat.repr (m + 1)).data = '-' :: (Nat.repr (n + 1)).data :=
        congrArg String.data h
      have h2 : Nat.repr (m + 1) = Nat.repr (n + 1) :=
        String.ext (List.cons_injective h1)
      have h3 := natRepr_inj h2
      have : m = n := by omega
      rw [this]

theorem pad2_no_dash (n : Nat) : '-' ∉ (pad2 n).data := by
  rw [pad2]
  by_cases h : n < 10
  · rw [if_pos h, String.data_append]
    intro hmem
    rcases List.mem_append.mp hmem with h' | h'
    · exact absurd h' (by decide)
    · exact natRepr_no_dash n h'
  · rw [if_neg h]
    exact natRepr_no_dash n

theorem digitChar_ne_zero : ∀ m, 1 ≤ m → m < 10 → Nat.digitChar m ≠ '0' := by decide

theorem pad2_inj : ∀ a, a < 100 → ∀ b, b < 100 → pad2 a = pad2 b → a = b := by
  have hform : ∀ a, ¬ a < 10 → a < 100 →
      (pad2 a).data = [Nat.digitChar (a / 10), Nat.digitChar (a % 10)] := by
    intro a h10 h100
    rw [pad2, if_neg h10, natRepr_data, natDigs_ge h10,
      natDigs_lt (by omega : a / 10 < 10)]
    rfl
  have hform0 : ∀ a, a < 10 → (pad2 a).data = ['0', Nat.digitChar a] := by
    intro a h10
    rw [pad2, if_pos h10, String.data_append, natRepr_data, natDigs_lt h10]
    rfl
  intro a ha b hb h
  have hd := congrArg String.data h
  by_cases h1 : a < 10 <;> by_cases h2 : b < 10
  · rw [hform0 a h1, hform0 b h2] at hd
    simp only [List.cons.injEq, and_true, true_and] at hd
    exact digitChar_inj10 a h1 b h2 hd
  · rw [hform0 a h1, hform b h2 hb] at hd
    simp only [List.cons.injEq, and_true] at hd
    exact absurd hd.1.symm (digitChar_ne_zero (b / 10) (by omega) (by omega))
  · rw [hform a h1 ha, hform0 b h2] at hd
    simp only [List.cons.injEq, and_true] at hd
    exact absurd hd.1 (digitChar_ne_zero (a / 10) (by omega) (by omega))
  · rw [hform a h1 ha, hform b h2 hb] at hd
    simp only [List.cons.injEq, and_true] at hd
    have hq := digitChar_inj10 (a / 10) (by omega) (b / 10) (by omega) hd.1
    have hr := digitChar_inj10 (a % 10) (by omega) (b % 10) (by omega) hd.2
    have d1 := Nat.div_add_mod a 10
    have d2 := Nat.div_add_mod b 10
    omega

/-- A string containing no dash character; the well-formedness condition
for the individual tokens of a cache key. -/
def dashFree (s : String) : Prop := '-' ∉ s.data

instance (s : String) : Decidable (dashFree s) :=
  inferInstanceAs (Decidable ('-' ∉ s.data))

theorem dashFree_natRepr (n : Nat) : dashFree (Nat.repr n) := natRepr_no_dash n

theorem dashFree_intRepr (i : Int) (h : 0 ≤ i) : dashFree (Int.repr i) :=
  intRepr_no_dash i h

theorem dashFree_pad2 (n : Nat) : dashFree (pad2 n) := pad2_no_dash n

/-- Splitting a character list at the first separator: if neither prefix
contains the separating dash, the decomposition is unique. -/
theorem sep_split : ∀ (a b x y : List Char), '-' ∉ a → '-' ∉ b →
    a ++ '-' :: x = b ++ '-' :: y → a = b ∧ x = y := by
  intro a
  induction a with
  | nil =>
    intro b x y _ hb h
    cases b with
    | nil => exact ⟨rfl, List.cons_injective h⟩
    | cons c bs =>
      exfalso
      have hc : c = '-' := (List.cons.injEq _ _ _ _ ▸ h).1.symm
      exact hb (hc ▸ List.mem_cons_self c bs)
  | cons c as ih =>
    intro b x y ha hb h
    cases b with
    | nil =>
      exfalso
      have hc : c = '-' := (List.cons.injEq _ _ _ _ ▸ h).1
      exact ha (hc ▸ List.mem_cons_self c as)
    | cons c' bs =>
      have h' := List.cons.injEq _ _ _ _ ▸ h
      obtain ⟨he, hrest⟩ := h'
      have ha' : '-' ∉ as := fun hm => ha (List.mem_cons_of_mem c hm)
      have hb' : '-' ∉ bs := fun hm => hb (List.mem_cons_of_mem c' hm)
      obtain ⟨h1, h2⟩ := ih bs x y ha' hb' hrest
      exact ⟨by rw [he, h1], h2⟩

/-- Dash-joined token strings, the normal form of every cache key built
by the data provider. -/
def joinDash : List String → String
  | [] => ""
  | [s] => s
  | s :: rest => s ++ "-" ++ joinDash rest

theorem joinDash_cons (s : String) (t : String) (rest : List String) :
    joinDash (s :: t :: rest) = s ++ "-" ++ joinDash (t :: rest) := rfl

theorem joinDash_single (s : String) : joinDash [s] = s := rfl

/-- Joining dash-free tokens with dashes is injective on nonempty token
lists: a cache key determines its tokens. -/
theorem joinDash_inj : ∀ (l₁ l₂ : List String), l₁ ≠ [] → l₂ ≠ [] →
    (∀ s ∈ l₁, dashFree s) → (∀ s ∈ l₂, dashFree s) →
    joinDash l₁ = joinDash l₂ → l₁ = l₂ := by
  intro l₁
  induction l₁ with
  | nil => intro l₂ h1 _ _ _ _; exact absurd rfl h1
  | cons s rest ih =>
    intro l₂ _ h2 hd1 hd2 h
    cases l₂ with
    | nil => exact absurd rfl h2
    | cons t rest' =>
      cases rest with
      | nil =>
        cases rest' with
        | nil =>
          have : s = t := h
          rw [this]
        | cons u rest'' =>
          exfalso
          have hd := congrArg String.data h
          rw [joinDash_single, joinDash_cons, String.data_append,
            String.data_append] at hd
          have hmem : '-' ∈ s.data := by
            rw [hd]
            refine List.mem_append.mpr (Or.inl (List.mem_append.mpr (Or.inr ?_)))
            decide
          exact hd1 s (List.mem_cons_self s []) hmem
      | cons u rest'' =>
        cases rest' with
        | nil =>
          exfalso
          have hd := congrArg String.data h
          rw [joinDash_single, joinDash_cons, String.data_append,
            String.data_append] at hd
          have hmem : '-' ∈ t.data := by
            rw [← hd]
            refine List.mem_append.mpr (Or.inl (List.mem_append.mpr (Or.inr ?_)))
            decide
          exact hd2 t (List.mem_cons_self t []) hmem
        | cons v rest₃ =>
          have hd := congrArg String.data h
          rw [joinDash_cons, joinDash_cons, String.data_append,
            String.data_append, String.data_append, String.data_append,
            List.append_assoc, List.append_assoc] at hd
          have hsep : s.data ++ '-' :: (joinDash (u :: rest'')).data =
              t.data ++ '-' :: (joinDash (v :: rest₃)).data := by
            simpa using hd
          obtain ⟨hst, hrest⟩ := sep_split s.data t.data _ _
            (hd1 s (List.mem_cons_self s _)) (hd2 t (List.mem_cons_self t _)) hsep
          have htail : (u :: rest'') = (v :: rest₃) := by
            apply ih (v :: rest₃) (by simp) (by simp)
              (fun x hx => hd1 x (List.mem_cons_of_mem s hx))
              (fun x hx => hd2 x (List.mem_cons_of_mem t hx))
            exact String.ext hrest
          rw [String.ext hst, htail]

theorem append_ne_empty (s t : String) (h : s ≠ "") : s ++ t ≠ "" := by
  intro he
  apply h
  have hd := congrArg String.data he
  rw [String.data_append] at hd
  obtain ⟨h1, _⟩ := List.append_eq_nil.mp hd
  exact String.ext (by rw [h1])

theorem price_key_ne_empty (t a b : String) : price_cache_key t a b ≠ "" := by
  show intrinioCachePfx ++ "-" ++ t ++ "-" ++ a ++ "-" ++ b ++ "-" ++ "closing-prices" ≠ ""
  repeat apply append_ne_empty
  decide

theorem metric_key_ne_empty (t : String) (y1 y2 : Int) (f g : String) :
    metric_cache_key t y1 y2 f g ≠ "" := by
  show intrinioCachePfx ++ "-" ++ "metric" ++ "-" ++ t ++ "-" ++ Int.repr y1 ++
    "-" ++ Int.repr y2 ++ "-" ++ f ++ "-" ++ g ≠ ""
  repeat apply append_ne_empty
  decide

theorem statement_key_ne_empty (t sn st : String) (i : Int) :
    statement_cache_key t sn st i ≠ "" := by
  show intrinioCachePfx ++ "-" ++ "statement" ++ "-" ++ t ++ "-" ++ sn ++
    "-" ++ st ++ "-" ++ Int.repr i ≠ ""
  repeat apply append_ne_empty
  decide

/-- The closing-price cache key of intrinio_data.py line 66, as a
dash-joined token list: the ticker follows the prefix directly and the
category name `closing-prices` comes last. -/
theorem price_key_tokens (t : String) (d1 d2 : Date) :
    price_cache_key t (date_to_string d1) (date_to_string d2) =
      joinDash ["intrinio", t, Nat.repr d1.year, pad2 d1.month, pad2 d1.day,
        Nat.repr d2.year, pad2 d2.month, pad2 d2.day, "closing", "prices"] := by
  have hc : ("closing-prices" : String) = "closing" ++ "-" ++ "prices" := by decide
  simp only [price_cache_key, intrinioCachePfx, date_to_string, joinDash, hc,
    String.append_assoc]

/-- The metric cache key of intrinio_data.py line 508, as a dash-joined
token list: prefix, category, ticker, year range, frequency, tag. -/
theorem metric_key_tokens (t : String) (y1 y2 : Int) (f g : String) :
    metric_cache_key t y1 y2 f g =
      joinDash ["intrinio", "metric", t, Int.repr y1, Int.repr y2, f, g] := by
  simp only [metric_cache_key, intrinioCachePfx, joinDash, String.append_assoc]

/-- The statement cache key of intrinio_data.py line 436, as a
dash-joined token list: prefix, category, ticker, statement name,
period type, year. -/
theorem statement_key_tokens (t sn st : String) (i : Int) :
    statement_cache_key t sn st i =
      joinDash ["intrinio", "statement", t, sn, st, Int.repr i] := by
  simp only [statement_cache_key, intrinioCachePfx, joinDash, String.append_assoc]

theorem PyDict.lookup_insert {α β : Type} [DecidableEq α]
    (d : PyDict α β) (k : α) (v : β) : (d.insert k v).lookup k = some v := by
  induction d with
  | nil => simp [PyDict.insert, PyDict.lookup]
  | cons p rest ih =>
    obtain ⟨k₁, v₁⟩ := p
    by_cases h : k₁ = k
    · simp [PyDict.insert, PyDict.lookup, h]
    · simp [PyDict.insert, PyDict.lookup, h, ih]

theorem PyDict.lookup_insert_ne {α β : Type} [DecidableEq α]
    (d : PyDict α β) (k k' : α) (v : β) (h : k' ≠ k) :
    (d.insert k v).lookup k' = d.lookup k' := by
  have h' : ¬ k = k' := fun he => h he.symm
  induction d with
  | nil => simp [PyDict.insert, PyDict.lookup, h']
  | cons p rest ih =>
    obtain ⟨k₁, v₁⟩ := p
    by_cases h1 : k₁ = k
    · subst h1
      simp [PyDict.insert, PyDict.lookup, h']
    · by_cases h2 : k₁ = k'
      · simp [PyDict.insert, PyDict.lookup, h1, h2, h]
      · simp [PyDict.insert, PyDict.lookup, h1, h2, ih]

theorem PyDict.keys_insert_fresh {α β : Type} [DecidableEq α]
    (d : PyDict α β) (k : α) (v : β) (h : d.lookup k = none) :
    (d.insert k v).keys = d.keys ++ [k] := by
  induction d with
  | nil => simp [PyDict.insert, PyDict.keys]
  | cons p rest ih =>
    obtain ⟨k₁, v₁⟩ := p
    by_cases h1 : k₁ = k
    · rw [PyDict.lookup, if_pos h1] at h
      exact absurd h (by simp)
    · rw [PyDict.lookup, if_neg h1] at h
      have ihh := ih h
      simp only [PyDict.keys, List.map_cons] at ihh ⊢
      rw [PyDict.insert, if_neg h1, List.map_cons, ihh, List.cons_append]

theorem write_store (c : FinancialCache) (k : String) (v : PyObj)
    (hk : k ≠ "") (hv : v ≠ PyObj.str "") :
    FinancialCache.write c (some k) (some v) = PyDict.insert c k v := by
  show (if k = "" ∨ v = PyObj.str "" then c else PyDict.insert c k v) = _
  rw [if_neg (by tauto)]

/-- Sequence of `write` operations applied to a cache, describing the
caches reachable through the store's write interface. -/
def apply_writes : FinancialCache → List (Option String × Option PyObj) → FinancialCache
  | c, [] => c
  | c, (k, v) :: rest => apply_writes (FinancialCache.write c k v) rest

theorem write_skip (c : FinancialCache) (key : Option String) (value : Option PyObj)
    (h : key = none ∨ key = some "" ∨ value = none ∨ value = some (PyObj.str "")) :
    FinancialCache.write c key value = c := by
  cases key with
  | none => rfl
  | some k =>
    cases value with
    | none => rfl
    | some v =>
      have hkv : k = "" ∨ v = PyObj.str "" := by
        rcases h with h | h | h | h
        · exact absurd h (by simp)
        · exact Or.inl (by injection h)
        · exact absurd h (by simp)
        · exact Or.inr (by injection h)
      show (if k = "" ∨ v = PyObj.str "" then c else PyDict.insert c k v) = c
      rw [if_pos hkv]

theorem lookup_empty_key_apply_writes :
    ∀ (ops : List (Option String × Option PyObj)) (c : FinancialCache),
      PyDict.lookup c "" = none → PyDict.lookup (apply_writes c ops) "" = none := by
  intro ops
  induction ops with
  | nil => intro c h; exact h
  | cons p rest ih =>
    intro c h
    obtain ⟨k, v⟩ := p
    apply ih
    cases k with
    | none => exact h
    | some k' =>
      cases v with
      | none => exact h
      | some v' =>
        show PyDict.lookup
          (if k' = "" ∨ v' = PyObj.str "" then c else PyDict.insert c k' v') "" = none
        by_cases hc : k' = "" ∨ v' = PyObj.str ""
        · rw [if_pos hc]; exact h
        · rw [if_neg hc]
          push_neg at hc
          rw [PyDict.lookup_insert_ne c k' "" v' (fun he => hc.1 he.symm)]
          exact h

/-- Claim C7: a cache-store `write` with an empty or absent key, or an
empty or absent value, is a silent no-op: the store is unchanged, and on
any store reachable through writes a subsequent `read` of the empty or
absent key returns the not-found signal `none`; `read` of any missing
key returns `none` rather than raising. -/
theorem claim_C7_write_noop (c : FinancialCache) (key : Option String)
    (value : Option PyObj)
    (h : key = none ∨ key = some "" ∨ value = none ∨ value = some (PyObj.str "")) :
    FinancialCache.write c key value = c
    ∧ (∀ ops : List (Option String × Option PyObj),
        FinancialCache.read (apply_writes [] ops) (some "") = none
        ∧ FinancialCache.read (apply_writes [] ops) none = none)
    ∧ (∀ (c₁ : FinancialCache) (k : String),
        PyDict.lookup c₁ k = none → FinancialCache.read c₁ (some k) = none) := by
  refine ⟨write_skip c key value h, fun ops => ⟨?_, rfl⟩, fun c₁ k hk => hk⟩
  exact lookup_empty_key_apply_writes ops [] rfl

theorem claim_C7_witness :
    ((some "" : Option String) = none ∨ (some "" : Option String) = some "" ∨
        (some (PyObj.str "x") : Option PyObj) = none ∨
        (some (PyObj.str "x") : Option PyObj) = some (PyObj.str ""))
    ∧ FinancialCache.write [("a", PyObj.str "y")] (some "") (some (PyObj.str "x")) =
        [("a", PyObj.str "y")] :=
  ⟨Or.inr (Or.inl rfl),
    (claim_C7_write_noop [("a", PyObj.str "y")] (some "") (some (PyObj.str "x"))
      (Or.inr (Or.inl rfl))).1⟩

/-- Claim C1: with the price key absent from the cache and the external
price API succeeding with a nonempty record list, the first call to
`get_daily_stock_close_prices` issues one external call and writes the
raw response into the cache under the key built from the arguments; an
immediately repeated call with identical arguments is served from the
cache: it issues no external call and returns the same
date-string-to-price mapping, so the two calls together issue at most
one external call. -/
theorem claim_C1_second_call_cached (env : ApiEnv) (c : FinancialCache)
    (ticker : String) (start_date end_date : Date) (resp : SecurityPriceResponse)
    (hmiss : FinancialCache.read c (some (price_cache_key ticker
      (date_to_string start_date) (date_to_string end_date))) = none)
    (hapi : env.get_security_stock_prices ticker (date_to_string start_date)
      (date_to_string end_date) = Except.ok resp)
    (hne : resp.stock_prices ≠ []) :
    (get_daily_stock_close_prices env c ticker start_date end_date).apiCalls +
      (get_daily_stock_close_prices env
        (get_daily_stock_close_prices env c ticker start_date end_date).cache
        ticker start_date end_date).apiCalls ≤ 1
    ∧ FinancialCache.read
        (get_daily_stock_close_prices env c ticker start_date end_date).cache
        (some (price_cache_key ticker (date_to_string start_date)
          (date_to_string end_date))) = some (PyObj.priceResp resp)
    ∧ (get_daily_stock_close_prices env c ticker start_date end_date).result =
        Except.ok (build_price_dict resp.stock_prices [])
    ∧ (get_daily_stock_close_prices env
        (get_daily_stock_close_prices env c ticker start_date end_date).cache
        ticker start_date end_date).result =
      (get_daily_stock_close_prices env c ticker start_date end_date).result := by
  have hlen : ¬ resp.stock_prices.length = 0 := by
    intro h0
    exact hne (List.length_eq_zero.mp h0)
  have hwrite : FinancialCache.write c
      (some (price_cache_key ticker (date_to_string start_date)
        (date_to_string end_date)))
      (some (PyObj.priceResp resp)) =
      PyDict.insert c (price_cache_key ticker (date_to_string start_date)
        (date_to_string end_date)) (PyObj.priceResp resp) :=
    write_store _ _ _ (price_key_ne_empty _ _ _) (by simp)
  have h1 : get_daily_stock_close_prices env c ticker start_date end_date =
      ⟨Except.ok (build_price_dict resp.stock_prices []),
        PyDict.insert c (price_cache_key ticker (date_to_string start_date)
          (date_to_string end_date)) (PyObj.priceResp resp), 1⟩ := by
    simp only [get_daily_stock_close_prices, hmiss, hapi, hwrite, prices_finish,
      if_neg hlen]
  have hread2 : FinancialCache.read
      (PyDict.insert c (price_cache_key ticker (date_to_string start_date)
        (date_to_string end_date)) (PyObj.priceResp resp))
      (some (price_cache_key ticker (date_to_string start_date)
        (date_to_string end_date))) = some (PyObj.priceResp resp) :=
    PyDict.lookup_insert _ _ _
  have h2 : get_daily_stock_close_prices env
      (PyDict.insert c (price_cache_key ticker (date_to_string start_date)
        (date_to_string end_date)) (PyObj.priceResp resp)) ticker start_date end_date =
      ⟨Except.ok (build_price_dict resp.stock_prices []),
        PyDict.insert c (price_cache_key ticker (date_to_string start_date)
          (date_to_string end_date)) (PyObj.priceResp resp), 0⟩ := by
    simp only [get_daily_stock_close_prices, hread2, prices_finish, if_neg hlen]
  rw [h1, h2]
  exact ⟨by simp, hread2, rfl, rfl⟩

/-- A concrete fake external API (a counting test double in the spirit
of the testable properties in the spec) used to exercise the theorems
on closed inputs. -/
def fakeApiEnv : ApiEnv where
  get_security_stock_prices := fun t _ _ =>
    if t = "AAPL" then
      Except.ok ⟨[⟨⟨2019, 10, 1⟩, 100⟩, ⟨⟨2019, 10, 2⟩, 101⟩]⟩
    else Except.error (PyExn.apiException "404")
  get_company_historical_data := fun t tag _ _ _ =>
    if t = "AAPL" ∧ tag = "totalrevenue" then
      Except.ok ⟨[⟨⟨2018, 12, 31⟩, 1000⟩]⟩
    else Except.error (PyExn.apiException "404")
  get_fundamental_standardized_financials := fun sname =>
    if sname = "AAPL-income_statement-2018-FY" then
      Except.ok ⟨[⟨⟨"totalrevenue"⟩, 1000⟩, ⟨⟨"other"⟩, 5⟩]⟩
    else if sname = "AAPL-income_statement-2019-FY" then
      Except.ok ⟨[⟨⟨"totalrevenue"⟩, 1100⟩]⟩
    else Except.error (PyExn.apiException "404")

theorem claim_C1_witness :
    (get_daily_stock_close_prices fakeApiEnv [] "AAPL" ⟨2019, 10, 1⟩ ⟨2019, 10, 2⟩).apiCalls +
      (get_daily_stock_close_prices fakeApiEnv
        (get_daily_stock_close_prices fakeApiEnv [] "AAPL" ⟨2019, 10, 1⟩ ⟨2019, 10, 2⟩).cache
        "AAPL" ⟨2019, 10, 1⟩ ⟨2019, 10, 2⟩).apiCalls ≤ 1 :=
  (claim_C1_second_call_cached fakeApiEnv [] "AAPL" ⟨2019, 10, 1⟩ ⟨2019, 10, 2⟩
    ⟨[⟨⟨2019, 10, 1⟩, 100⟩, ⟨⟨2019, 10, 2⟩, 101⟩]⟩ rfl rfl (by decide)).1

/-- Claim C10: when the external price API succeeds with zero price
records, `get_daily_stock_close_prices` writes the empty response into
the cache before the zero-record check, so the first call issues one
external call and fails with `DataError`, and a repeated call with the
same arguments is served the cached empty response: it issues no new
external call and fails with the same `DataError` — the error state
persists in the cache. -/
theorem claim_C10_empty_response_cached (env : ApiEnv) (c : FinancialCache)
    (ticker : String) (start_date end_date : Date) (resp : SecurityPriceResponse)
    (hmiss : FinancialCache.read c (some (price_cache_key ticker
      (date_to_string start_date) (date_to_string end_date))) = none)
    (hapi : env.get_security_stock_prices ticker (date_to_string start_date)
      (date_to_string end_date) = Except.ok resp)
    (hempty : resp.stock_prices = []) :
    (get_daily_stock_close_prices env c ticker start_date end_date).apiCalls = 1
    ∧ FinancialCache.read
        (get_daily_stock_close_prices env c ticker start_date end_date).cache
        (some (price_cache_key ticker (date_to_string start_date)
          (date_to_string end_date))) = some (PyObj.priceResp resp)
    ∧ (get_daily_stock_close_prices env c ticker start_date end_date).result =
        Except.error (ProviderErr.dataError
          ("No prices returned from Intrinio Security API: (\x27" ++ ticker ++
            "\x27, " ++ date_to_string start_date ++ " - " ++
            date_to_string end_date ++ ")") none)
    ∧ (get_daily_stock_close_prices env
        (get_daily_stock_close_prices env c ticker start_date end_date).cache
        ticker start_date end_date).apiCalls = 0
    ∧ (get_daily_stock_close_prices env
        (get_daily_stock_close_prices env c ticker start_date end_date).cache
        ticker start_date end_date).result =
      (get_daily_stock_close_prices env c ticker start_date end_date).result := by
  have hlen : resp.stock_prices.length = 0 := by rw [hempty]; rfl
  have hwrite : FinancialCache.write c
      (some (price_cache_key ticker (date_to_string start_date)
        (date_to_string end_date)))
      (some (PyObj.priceResp resp)) =
      PyDict.insert c (price_cache_key ticker (date_to_string start_date)
        (date_to_string end_date)) (PyObj.priceResp resp) :=
    write_store _ _ _ (price_key_ne_empty _ _ _) (by simp)
  have h1 : get_daily_stock_close_prices env c ticker start_date end_date =
      ⟨Except.error (ProviderErr.dataError
          ("No prices returned from Intrinio Security API: (\x27" ++ ticker ++
            "\x27, " ++ date_to_string start_date ++ " - " ++
            date_to_string end_date ++ ")") none),
        PyDict.insert c (price_cache_key ticker (date_to_string start_date)
          (date_to_string end_date)) (PyObj.priceResp resp), 1⟩ := by
    simp only [get_daily_stock_close_prices, hmiss, hapi, hwrite, prices_finish,
      if_pos hlen]
  have hread2 : FinancialCache.read
      (PyDict.insert c (price_cache_key ticker (date_to_string start_date)
        (date_to_string end_date)) (PyObj.priceResp resp))
      (some (price_cache_key ticker (date_to_string start_date)
        (date_to_string end_date))) = some (PyObj.priceResp resp) :=
    PyDict.lookup_insert _ _ _
  have h2 : get_daily_stock_close_prices env
      (PyDict.insert c (price_cache_key ticker (date_to_string start_date)
        (date_to_string end_date)) (PyObj.priceResp resp)) ticker start_date end_date =
      ⟨Except.error (ProviderErr.dataError
          ("No prices returned from Intrinio Security API: (\x27" ++ ticker ++
            "\x27, " ++ date_to_string start_date ++ " - " ++
            date_to_string end_date ++ ")") none),
        PyDict.insert c (price_cache_key ticker (date_to_string start_date)
          (date_to_string end_date)) (PyObj.priceResp resp), 0⟩ := by
    simp only [get_daily_stock_close_prices, hread2, prices_finish, if_pos hlen]
  rw [h1, h2]
  exact ⟨rfl, hread2, rfl, rfl, rfl⟩

/-- A fake external API whose price endpoint succeeds with zero
records. -/
def emptyPriceEnv : ApiEnv where
  get_security_stock_prices := fun _ _ _ => Except.ok ⟨[]⟩
  get_company_historical_data := fakeApiEnv.get_company_historical_data
  get_fundamental_standardized_financials := fakeApiEnv.get_fundamental_standardized_financials

theorem claim_C10_witness :
    (get_daily_stock_close_prices emptyPriceEnv [] "AAPL"
        ⟨2019, 10, 1⟩ ⟨2019, 10, 2⟩).apiCalls = 1
    ∧ (get_daily_stock_close_prices emptyPriceEnv
        (get_daily_stock_close_prices emptyPriceEnv [] "AAPL"
          ⟨2019, 10, 1⟩ ⟨2019, 10, 2⟩).cache
        "AAPL" ⟨2019, 10, 1⟩ ⟨2019, 10, 2⟩).apiCalls = 0 :=
  ⟨(claim_C10_empty_response_cached emptyPriceEnv [] "AAPL"
      ⟨2019, 10, 1⟩ ⟨2019, 10, 2⟩ ⟨[]⟩ rfl rfl rfl).1,
    (claim_C10_empty_response_cached emptyPriceEnv [] "AAPL"
      ⟨2019, 10, 1⟩ ⟨2019, 10, 2⟩ ⟨[]⟩ rfl rfl rfl).2.2.2.1⟩

/-- Claim C4: when the external source returns a technically successful
response whose record series is empty — zero price records for the
daily-price fetch, zero historical data points for the metric-series
fetch — the operation fails with a `DataError`, not a generic exception
and not an empty-mapping success. -/
theorem claim_C4_zero_records :
    (∀ (env : ApiEnv) (c : FinancialCache) (ticker : String) (d1 d2 : Date)
      (resp : SecurityPriceResponse),
      FinancialCache.read c (some (price_cache_key ticker (date_to_string d1)
        (date_to_string d2))) = none →
      env.get_security_stock_prices ticker (date_to_string d1)
        (date_to_string d2) = Except.ok resp →
      resp.stock_prices = [] →
      ∃ msg, (get_daily_stock_close_prices env c ticker d1 d2).result =
        Except.error (ProviderErr.dataError msg none))
    ∧ (∀ (env : ApiEnv) (c : FinancialCache) (ticker : String) (y1 y2 : Int)
      (tag : String) (resp : MetricResponse),
      FinancialCache.read c (some (metric_cache_key ticker y1 y2 "yearly" tag)) = none →
      env.get_company_historical_data ticker tag "yearly"
        (get_fiscal_year_period y1).1 (get_fiscal_year_period y2).2 = Except.ok resp →
      resp.historical_data = [] →
      ∃ msg, (read_financial_metrics env c ticker y1 y2 tag).result =
        Except.error (ProviderErr.dataError msg none)) := by
  constructor
  · intro env c ticker d1 d2 resp hmiss hapi hempty
    have hlen : resp.stock_prices.length = 0 := by rw [hempty]; rfl
    have hwrite := write_store c
      (price_cache_key ticker (date_to_string d1) (date_to_string d2))
      (PyObj.priceResp resp) (price_key_ne_empty _ _ _) (by simp)
    refine ⟨"No prices returned from Intrinio Security API: (\x27" ++ ticker ++
      "\x27, " ++ date_to_string d1 ++ " - " ++ date_to_string d2 ++ ")", ?_⟩
    simp only [get_daily_stock_close_prices, hmiss, hapi, hwrite, prices_finish,
      if_pos hlen]
  · intro env c ticker y1 y2 tag resp hmiss hapi hempty
    have hlen : resp.historical_data.length = 0 := by rw [hempty]; rfl
    have hwrite := write_store c (metric_cache_key ticker y1 y2 "yearly" tag)
      (PyObj.metricResp resp) (metric_key_ne_empty _ _ _ _ _) (by simp)
    refine ⟨"No Data returned for (\x27" ++ ticker ++ "\x27, " ++
      Int.repr y1 ++ " - " ++ Int.repr y2 ++ ") -> \x27" ++ tag ++
      "\x27 from Intrinio Company API", ?_⟩
    simp only [read_financial_metrics, hmiss, hapi, hwrite, metrics_finish,
      if_pos hlen]

/-- A fake external API whose metric endpoint succeeds with zero data
points. -/
def emptyMetricEnv : ApiEnv where
  get_security_stock_prices := fakeApiEnv.get_security_stock_prices
  get_company_historical_data := fun _ _ _ _ _ => Except.ok ⟨[]⟩
  get_fundamental_standardized_financials := fakeApiEnv.get_fundamental_standardized_financials

theorem claim_C4_witness :
    (∃ msg, (get_daily_stock_close_prices emptyPriceEnv [] "AAPL"
        ⟨2019, 10, 1⟩ ⟨2019, 10, 2⟩).result =
      Except.error (ProviderErr.dataError msg none))
    ∧ (∃ msg, (read_financial_metrics emptyMetricEnv [] "AAPL" 2018 2019
        "totalrevenue").result =
      Except.error (ProviderErr.dataError msg none)) :=
  ⟨claim_C4_zero_records.1 emptyPriceEnv [] "AAPL" ⟨2019, 10, 1⟩ ⟨2019, 10, 2⟩
      ⟨[]⟩ rfl rfl rfl,
    claim_C4_zero_records.2 emptyMetricEnv [] "AAPL" 2018 2019 "totalrevenue"
      ⟨[]⟩ rfl rfl rfl⟩

/-- Claim C9: the single-year metric operation delegates to the
metric-series operation with `year_from = year_to = year` (same cache
effect and same external-call count) and extracts the entry for that
year from the returned mapping; when the returned series omits that
exact year the caller receives the propagated lookup failure
(`KeyError`), never a silent default, and when the year is present the
caller receives exactly its value. -/
theorem claim_C9_single_year_lookup (env : ApiEnv) (c : FinancialCache)
    (ticker : String) (year : Int) (tag : String) :
    (read_financial_metric env c ticker year tag).cache =
      (read_financial_metrics env c ticker year year tag).cache
    ∧ (read_financial_metric env c ticker year tag).apiCalls =
      (read_financial_metrics env c ticker year year tag).apiCalls
    ∧ (∀ m : PyDict Int Int,
        (read_financial_metrics env c ticker year year tag).result = Except.ok m →
        m.lookup year = none →
        (read_financial_metric env c ticker year tag).result =
          Except.error (ProviderErr.keyError year))
    ∧ (∀ (m : PyDict Int Int) (v : Int),
        (read_financial_metrics env c ticker year year tag).result = Except.ok m →
        m.lookup year = some v →
        (read_financial_metric env c ticker year tag).result = Except.ok v) := by
  refine ⟨?_, ?_, ?_, ?_⟩
  · cases hr : (read_financial_metrics env c ticker year year tag).result with
    | ok m =>
      cases hl : m.lookup year with
      | some v => simp only [read_financial_metric, hr, hl]
      | none => simp only [read_financial_metric, hr, hl]
    | error e => simp only [read_financial_metric, hr]
  · cases hr : (read_financial_metrics env c ticker year year tag).result with
    | ok m =>
      cases hl : m.lookup year with
      | some v => simp only [read_financial_metric, hr, hl]
      | none => simp only [read_financial_metric, hr, hl]
    | error e => simp only [read_financial_metric, hr]
  · intro m hr hl
    simp only [read_financial_metric, hr, hl]
  · intro m v hr hl
    simp only [read_financial_metric, hr, hl]

theorem claim_C9_witness :
    (read_financial_metrics fakeApiEnv [] "AAPL" 2019 2019 "totalrevenue").result =
      Except.ok [((2018 : Int), (1000 : Int))]
    ∧ (read_financial_metric fakeApiEnv [] "AAPL" 2019 "totalrevenue").result =
      Except.error (ProviderErr.keyError 2019) :=
  ⟨rfl, (claim_C9_single_year_lookup fakeApiEnv [] "AAPL" 2019 "totalrevenue").2.2.1
    [((2018 : Int), (1000 : Int))] rfl rfl⟩

/-- Boolean discriminator for `Except`, used to tell an `ok` result from
an `error` result when comparing provider outcomes. -/
def isOkB {ε α : Type} : Except ε α → Bool
  | Except.ok _ => true
  | Except.error _ => false

/-- Claim C8 counterexample: the daily-price and metric operations do
not normalize ticker case.  The cache keys built for `aapl` and `AAPL`
differ, and under a fake external API the price and metric operations
called with `aapl` and with `AAPL` return different results (success
for one, failure for the other), refuting the claim that every
data-provider operation uppercases the ticker before building cache
keys and external requests. -/
theorem claim_C8_counterexample :
    price_cache_key "aapl" (date_to_string ⟨2019, 10, 1⟩) (date_to_string ⟨2019, 10, 2⟩) ≠
      price_cache_key "AAPL" (date_to_string ⟨2019, 10, 1⟩) (date_to_string ⟨2019, 10, 2⟩)
    ∧ (get_daily_stock_close_prices fakeApiEnv [] "aapl" ⟨2019, 10, 1⟩ ⟨2019, 10, 2⟩).result ≠
      (get_daily_stock_close_prices fakeApiEnv [] "AAPL" ⟨2019, 10, 1⟩ ⟨2019, 10, 2⟩).result
    ∧ metric_cache_key "aapl" 2018 2019 "yearly" "totalrevenue" ≠
      metric_cache_key "AAPL" 2018 2019 "yearly" "totalrevenue"
    ∧ (read_financial_metrics fakeApiEnv [] "aapl" 2018 2019 "totalrevenue").result ≠
      (read_financial_metrics fakeApiEnv [] "AAPL" 2018 2019 "totalrevenue").result := by
  refine ⟨by decide, ?_, by decide, ?_⟩
  · intro h
    exact absurd (congrArg isOkB h) (by decide)
  · intro h
    exact absurd (congrArg isOkB h) (by decide)

/-- Claim C8 as amended: only the historical-statement operations
normalize the ticker to uppercase; for them two calls whose tickers
agree up to case behave identically (the price and metric operations
use the ticker verbatim, see the counterexample). -/
theorem claim_C8_amended (env : ApiEnv) (c : FinancialCache) (t1 t2 : String)
    (year_from year_to : Int) (tag_filter_list : Option (List String))
    (h : str_upper t1 = str_upper t2) :
    get_historical_income_stmt env c t1 year_from year_to tag_filter_list =
      get_historical_income_stmt env c t2 year_from year_to tag_filter_list
    ∧ get_historical_balance_sheet env c t1 year_from year_to tag_filter_list =
      get_historical_balance_sheet env c t2 year_from year_to tag_filter_list
    ∧ get_historical_cashflow_stmt env c t1 year_from year_to tag_filter_list =
      get_historical_cashflow_stmt env c t2 year_from year_to tag_filter_list := by
  refine ⟨?_, ?_, ?_⟩
  · simp only [get_historical_income_stmt, h]
  · simp only [get_historical_balance_sheet, h]
  · simp only [get_historical_cashflow_stmt, h]

theorem claim_C8_witness :
    get_historical_income_stmt fakeApiEnv [] "aapl" 2018 2019 (some ["totalrevenue"]) =
      get_historical_income_stmt fakeApiEnv [] "AAPL" 2018 2019 (some ["totalrevenue"]) :=
  (claim_C8_amended fakeApiEnv [] "aapl" "AAPL" 2018 2019 (some ["totalrevenue"])
    (by decide)).1

theorem int_range_empty {a b : Int} (h : b ≤ a) : int_range a b = [] := by
  unfold int_range
  have h0 : (b - a).toNat = 0 := by omega
  rw [h0]
  rfl

theorem int_range_cons {a b : Int} (h : a < b) :
    int_range a b = a :: int_range (a + 1) b := by
  unfold int_range
  have hn : (b - a).toNat = (b - (a + 1)).toNat + 1 := by omega
  rw [hn, List.range_succ_eq_map, List.map_cons, List.map_map]
  refine congrArg₂ _ (by simp) ?_
  apply List.map_congr_left
  intro k _
  simp only [Function.comp_apply]
  push_cast
  omega

theorem mem_int_range {a b i : Int} : i ∈ int_range a b ↔ a ≤ i ∧ i < b := by
  simp only [int_range, List.mem_map, List.mem_range]
  constructor
  · rintro ⟨k, hk, rfl⟩
    omega
  · rintro ⟨h1, h2⟩
    exact ⟨(i - a).toNat, by omega, by omega⟩

theorem int_range_nodup (a b : Int) : (int_range a b).Nodup := by
  unfold int_range
  refine List.Nodup.map ?_ (List.nodup_range _)
  intro k₁ k₂ h
  have h' : a + (k₁ : Int) = a + (k₂ : Int) := h
  omega

theorem int_range_split {a m b : Int} (h1 : a ≤ m) (h2 : m < b) :
    int_range a b = int_range a m ++ m :: int_range (m + 1) b := by
  have key : ∀ (k : Nat) (a₀ : Int), a₀ ≤ m → (m - a₀).toNat = k →
      int_range a₀ b = int_range a₀ m ++ m :: int_range (m + 1) b := by
    intro k
    induction k with
    | zero =>
      intro a₀ ha hk
      have heq : a₀ = m := by omega
      subst heq
      rw [int_range_cons h2, int_range_empty (le_refl a₀), List.nil_append]
    | succ k ih =>
      intro a₀ ha hk
      have haltm : a₀ < m := by omega
      rw [int_range_cons (by omega : a₀ < b), int_range_cons haltm,
        ih (a₀ + 1) (by omega) (by omega), List.cons_append]
  exact key (m - a).toNat a h1 rfl

theorem statement_key_ne_of_year_ne (t sn st : String) {i j : Int} (h : i ≠ j) :
    statement_cache_key t sn st i ≠ statement_cache_key t sn st j := by
  intro he
  apply h
  apply intRepr_inj
  have hd := congrArg String.data he
  simp only [statement_cache_key, String.data_append, List.append_assoc] at hd
  repeat replace hd := List.append_cancel_left hd
  exact String.ext hd

theorem stmt_loop_all_ok (env : ApiEnv) (T SN ST : String)
    (tfl : Option (List String)) (S : Int → StatementResponse) :
    ∀ (l : List Int) (c : FinancialCache) (hist : PyDict Int (PyDict String Int))
      (calls : Nat),
    (∀ i ∈ l, FinancialCache.read c (some (statement_cache_key T SN ST i)) = none) →
    l.Nodup →
    (∀ i ∈ l, env.get_fundamental_standardized_financials
      (T ++ "-" ++ SN ++ "-" ++ Int.repr i ++ "-" ++ ST) = Except.ok (S i)) →
    ∃ c₁, stmt_loop env T SN ST tfl l c hist calls =
      (Except.ok (List.foldl (fun h i => h.insert i
        (transform_financial_stmt (S i).standardized_financials tfl)) hist l),
        c₁, calls + l.length) := by
  intro l
  induction l with
  | nil => intro c hist calls _ _ _; exact ⟨c, rfl⟩
  | cons i rest ih =>
    intro c hist calls hmiss hnd hapi
    have hwrite := write_store c (statement_cache_key T SN ST i)
      (PyObj.stmtResp (S i)) (statement_key_ne_empty _ _ _ _) (by simp)
    have hmiss' : ∀ j ∈ rest, FinancialCache.read
        (PyDict.insert c (statement_cache_key T SN ST i) (PyObj.stmtResp (S i)))
        (some (statement_cache_key T SN ST j)) = none := by
      intro j hj
      have hne : statement_cache_key T SN ST j ≠ statement_cache_key T SN ST i :=
        statement_key_ne_of_year_ne T SN ST
          (fun he => (List.nodup_cons.mp hnd).1 (he ▸ hj))
      show PyDict.lookup _ _ = none
      rw [PyDict.lookup_insert_ne _ _ _ _ hne]
      exact hmiss j (List.mem_cons_of_mem i hj)
    obtain ⟨c₁, hc₁⟩ := ih
      (PyDict.insert c (statement_cache_key T SN ST i) (PyObj.stmtResp (S i)))
      (hist.insert i (transform_financial_stmt (S i).standardized_financials tfl))
      (calls + 1) hmiss' (List.nodup_cons.mp hnd).2
      (fun j hj => hapi j (List.mem_cons_of_mem i hj))
    refine ⟨c₁, ?_⟩
    have hunf : stmt_loop env T SN ST tfl (i :: rest) c hist calls =
        stmt_loop env T SN ST tfl rest
          (PyDict.insert c (statement_cache_key T SN ST i) (PyObj.stmtResp (S i)))
          (hist.insert i (transform_financial_stmt (S i).standardized_financials tfl))
          (calls + 1) := by
      simp only [stmt_loop, hmiss i (List.mem_cons_self i rest),
        hapi i (List.mem_cons_self i rest), hwrite]
    rw [hunf, hc₁]
    have hlen : calls + 1 + rest.length = calls + (i :: rest).length := by
      simp [List.length_cons]
      omega
    rw [hlen]
    rfl

theorem stmt_loop_first_error (env : ApiEnv) (T SN ST : String)
    (tfl : Option (List String)) (e : PyExn) :
    ∀ (l₁ : List Int) (i₀ : Int) (l₂ : List Int) (c : FinancialCache)
      (hist : PyDict Int (PyDict String Int)) (calls : Nat),
    (∀ i ∈ l₁ ++ i₀ :: l₂, FinancialCache.read c
      (some (statement_cache_key T SN ST i)) = none) →
    (l₁ ++ i₀ :: l₂).Nodup →
    (∀ j ∈ l₁, ∃ r, env.get_fundamental_standardized_financials
      (T ++ "-" ++ SN ++ "-" ++ Int.repr j ++ "-" ++ ST) = Except.ok r) →
    env.get_fundamental_standardized_financials
      (T ++ "-" ++ SN ++ "-" ++ Int.repr i₀ ++ "-" ++ ST) = Except.error e →
    ∃ c₁ calls₁, stmt_loop env T SN ST tfl (l₁ ++ i₀ :: l₂) c hist calls =
      (Except.error e, c₁, calls₁) := by
  intro l₁
  induction l₁ with
  | nil =>
    intro i₀ l₂ c hist calls hmiss _ _ herr
    refine ⟨c, calls + 1, ?_⟩
    simp only [List.nil_append] at hmiss ⊢
    simp only [stmt_loop, hmiss i₀ (List.mem_cons_self i₀ l₂), herr]
  | cons j rest ih =>
    intro i₀ l₂ c hist calls hmiss hnd hok herr
    obtain ⟨r, hr⟩ := hok j (List.mem_cons_self j rest)
    have hwrite := write_store c (statement_cache_key T SN ST j)
      (PyObj.stmtResp r) (statement_key_ne_empty _ _ _ _) (by simp)
    rw [List.cons_append] at hmiss hnd
    have hmiss' : ∀ i ∈ rest ++ i₀ :: l₂, FinancialCache.read
        (PyDict.insert c (statement_cache_key T SN ST j) (PyObj.stmtResp r))
        (some (statement_cache_key T SN ST i)) = none := by
      intro i hi
      have hne : statement_cache_key T SN ST i ≠ statement_cache_key T SN ST j :=
        statement_key_ne_of_year_ne T SN ST
          (fun he => (List.nodup_cons.mp hnd).1 (he ▸ hi))
      show PyDict.lookup _ _ = none
      rw [PyDict.lookup_insert_ne _ _ _ _ hne]
      exact hmiss i (List.mem_cons_of_mem j hi)
    obtain ⟨c₁, calls₁, hc₁⟩ := ih i₀ l₂
      (PyDict.insert c (statement_cache_key T SN ST j) (PyObj.stmtResp r))
      (hist.insert j (transform_financial_stmt r.standardized_financials tfl))
      (calls + 1) hmiss' (List.nodup_cons.mp hnd).2
      (fun x hx => hok x (List.mem_cons_of_mem j hx)) herr
    refine ⟨c₁, calls₁, ?_⟩
    have hunf : stmt_loop env T SN ST tfl ((j :: rest) ++ i₀ :: l₂) c hist calls =
        stmt_loop env T SN ST tfl (rest ++ i₀ :: l₂)
          (PyDict.insert c (statement_cache_key T SN ST j) (PyObj.stmtResp r))
          (hist.insert j (transform_financial_stmt r.standardized_financials tfl))
          (calls + 1) := by
      rw [List.cons_append]
      simp only [stmt_loop, hmiss j (List.mem_cons_self j _), hr, hwrite]
    rw [hunf, hc₁]

/-- The last surviving value in a standardized-financials list for a
given tag under a given filter, matching how the transformation's
in-place dictionary updates make later records win. -/
def last_passing_value : List StandardizedFinancial → Option (List String) →
    String → Option Int
  | [], _, _ => none
  | financial :: rest, tfl, tag =>
    match last_passing_value rest tfl tag with
    | some v => some v
    | none =>
      match tfl with
      | none => if financial.data_tag.tag = tag then some financial.value else none
      | some l =>
        if financial.data_tag.tag ∈ l then
          if financial.data_tag.tag = tag then some financial.value else none
        else none

theorem transform_go_lookup :
    ∀ (l : List StandardizedFinancial) (tfl : Option (List String))
      (res : PyDict String Int) (tag : String),
      PyDict.lookup (transform_financial_stmt.transform_go l tfl res) tag =
        match last_passing_value l tfl tag with
        | some v => some v
        | none => PyDict.lookup res tag := by
  intro l
  induction l with
  | nil => intro tfl res tag; rfl
  | cons financial rest ih =>
    intro tfl res tag
    have hins : ∀ v : Int, PyDict.lookup
        (res.insert financial.data_tag.tag v) tag =
        if financial.data_tag.tag = tag then some v else PyDict.lookup res tag := by
      intro v
      by_cases he : financial.data_tag.tag = tag
      · rw [if_pos he, he, PyDict.lookup_insert]
      · rw [if_neg he, PyDict.lookup_insert_ne _ _ _ _ (fun h => he h.symm)]
    cases tfl with
    | none =>
      show PyDict.lookup (transform_financial_stmt.transform_go rest none
        (res.insert financial.data_tag.tag financial.value)) tag = _
      rw [ih none (res.insert financial.data_tag.tag financial.value) tag]
      cases hlast : last_passing_value rest none tag with
      | some v => simp only [last_passing_value, hlast]
      | none =>
        simp only [last_passing_value, hlast, hins financial.value]
        by_cases he : financial.data_tag.tag = tag
        · rw [if_pos he, if_pos he]
        · rw [if_neg he, if_neg he]
    | some fl =>
      by_cases hpass : financial.data_tag.tag ∈ fl
      · show PyDict.lookup (if financial.data_tag.tag ∈ fl then
            transform_financial_stmt.transform_go rest (some fl)
              (res.insert financial.data_tag.tag financial.value)
          else transform_financial_stmt.transform_go rest (some fl) res) tag = _
        rw [if_pos hpass, ih (some fl) _ tag]
        cases hlast : last_passing_value rest (some fl) tag with
        | some v => simp only [last_passing_value, hlast]
        | none =>
          simp only [last_passing_value, hlast, if_pos hpass, hins financial.value]
          by_cases he : financial.data_tag.tag = tag
          · rw [if_pos he, if_pos he]
          · rw [if_neg he, if_neg he]
      · show PyDict.lookup (if financial.data_tag.tag ∈ fl then
            transform_financial_stmt.transform_go rest (some fl)
              (res.insert financial.data_tag.tag financial.value)
          else transform_financial_stmt.transform_go rest (some fl) res) tag = _
        rw [if_neg hpass, ih (some fl) res tag]
        cases hlast : last_passing_value rest (some fl) tag with
        | some v => simp only [last_passing_value, hlast]
        | none => simp only [last_passing_value, hlast, if_neg hpass]

theorem last_passing_value_filter :
    ∀ (l : List StandardizedFinancial) (fl : List String) (tag : String),
      last_passing_value l (some fl) tag =
        if tag ∈ fl then last_passing_value l none tag else none := by
  intro l
  induction l with
  | nil =>
    intro fl tag
    by_cases h : tag ∈ fl
    · rw [if_pos h]; rfl
    · rw [if_neg h]; rfl
  | cons financial rest ih =>
    intro fl tag
    simp only [last_passing_value, ih fl tag]
    by_cases h : tag ∈ fl
    · simp only [if_pos h]
      cases hlast : last_passing_value rest none tag with
      | some v => rfl
      | none =>
        by_cases he : financial.data_tag.tag = tag
        · have hp : financial.data_tag.tag ∈ fl := he ▸ h
          simp [if_pos hp, if_pos he]
        · by_cases hp : financial.data_tag.tag ∈ fl
          · simp [if_pos hp, if_neg he]
          · simp [if_neg hp, if_neg he]
    · simp only [if_neg h]
      by_cases hp : financial.data_tag.tag ∈ fl
      · have he : ¬ financial.data_tag.tag = tag := fun he => h (he ▸ hp)
        simp [if_pos hp, if_neg he]
      · simp [if_neg hp]

/-- The tag filter of the statement transformation keeps exactly the
requested tags, with the values of the unfiltered transformation. -/
theorem transform_filter_lookup (l : List StandardizedFinancial)
    (fl : List String) (tag : String) :
    PyDict.lookup (transform_financial_stmt l (some fl)) tag =
      if tag ∈ fl then PyDict.lookup (transform_financial_stmt l none) tag
      else none := by
  show PyDict.lookup (transform_financial_stmt.transform_go l (some fl) []) tag = _
  rw [transform_go_lookup l (some fl) [] tag, last_passing_value_filter l fl tag]
  by_cases h : tag ∈ fl
  · rw [if_pos h, if_pos h]
    show _ = PyDict.lookup (transform_financial_stmt.transform_go l none []) tag
    rw [transform_go_lookup l none [] tag]
  · rw [if_neg h, if_neg h]
    rfl

theorem foldl_insert_lookup (g : Int → PyDict String Int) :
    ∀ (l : List Int) (hist : PyDict Int (PyDict String Int)) (i : Int),
      PyDict.lookup (List.foldl (fun h j => h.insert j (g j)) hist l) i =
        if i ∈ l then some (g i) else hist.lookup i := by
  intro l
  induction l with
  | nil => intro hist i; simp
  | cons j rest ih =>
    intro hist i
    rw [List.foldl_cons, ih (hist.insert j (g j)) i]
    by_cases hm : i ∈ rest
    · rw [if_pos hm, if_pos (List.mem_cons_of_mem j hm)]
    · rw [if_neg hm]
      by_cases he : i = j
      · subst he
        rw [PyDict.lookup_insert, if_pos (List.mem_cons_self i rest)]
      · rw [PyDict.lookup_insert_ne _ _ _ _ he,
          if_neg (by simp [he, hm])]

theorem foldl_insert_keys (g : Int → PyDict String Int) :
    ∀ (l : List Int) (hist : PyDict Int (PyDict String Int)),
      (∀ i ∈ l, hist.lookup i = none) → l.Nodup →
      (List.foldl (fun h j => h.insert j (g j)) hist l).keys = hist.keys ++ l := by
  intro l
  induction l with
  | nil => intro hist _ _; simp
  | cons j rest ih =>
    intro hist hfresh hnd
    rw [List.foldl_cons, ih (hist.insert j (g j)) ?fresh (List.nodup_cons.mp hnd).2,
      PyDict.keys_insert_fresh hist j (g j) (hfresh j (List.mem_cons_self j rest)),
      List.append_assoc, List.singleton_append]
    case fresh =>
      intro i hi
      rw [PyDict.lookup_insert_ne _ _ _ _
        (fun he => (List.nodup_cons.mp hnd).1 (by rw [← he]; exact hi))]
      exact hfresh i (List.mem_cons_of_mem j hi)

/-- Claim C3: for every ticker, inclusive year range and tag filter,
when the cache holds none of the statement keys and the external
fundamentals API succeeds for every year of the range, the historical
statement retrieval returns one entry per year of the inclusive range
`[year_from, year_to]`, each year mapped to the transformation of that
year's raw statement; and the transformation with a tag filter keeps
exactly the tags in the filter, with values equal to those of the
unfiltered transformation. -/
theorem claim_C3_statement_range_and_filter (env : ApiEnv) (c : FinancialCache)
    (ticker statement_name : String) (year_from year_to : Int)
    (tag_filter_list : Option (List String)) (S : Int → StatementResponse)
    (hmiss : ∀ i ∈ int_range year_from (year_to + 1), FinancialCache.read c
      (some (statement_cache_key (str_upper ticker) statement_name "FY" i)) = none)
    (hapi : ∀ i ∈ int_range year_from (year_to + 1),
      env.get_fundamental_standardized_financials
        (str_upper ticker ++ "-" ++ statement_name ++ "-" ++ Int.repr i ++ "-" ++ "FY") =
        Except.ok (S i)) :
    ∃ m, (read_historical_financial_statement env c ticker statement_name
        year_from year_to tag_filter_list).result = Except.ok m
      ∧ m.keys = int_range year_from (year_to + 1)
      ∧ (∀ i, m.lookup i =
          if year_from ≤ i ∧ i ≤ year_to then
            some (transform_financial_stmt (S i).standardized_financials tag_filter_list)
          else none)
      ∧ (∀ (l : List StandardizedFinancial) (fl : List String) (tag : String),
          PyDict.lookup (transform_financial_stmt l (some fl)) tag =
            if tag ∈ fl then PyDict.lookup (transform_financial_stmt l none) tag
            else none) := by
  obtain ⟨c₁, hloop⟩ := stmt_loop_all_ok env (str_upper ticker) statement_name "FY"
    tag_filter_list S (int_range year_from (year_to + 1)) c [] 0 hmiss
    (int_range_nodup _ _) hapi
  refine ⟨List.foldl (fun h i => h.insert i
      (transform_financial_stmt (S i).standardized_financials tag_filter_list))
      [] (int_range year_from (year_to + 1)), ?_, ?_, ?_, ?_⟩
  · simp only [read_historical_financial_statement, hloop]
  · rw [foldl_insert_keys _ _ [] (fun _ _ => rfl) (int_range_nodup _ _)]
    rfl
  · intro i
    rw [foldl_insert_lookup _ _ [] i]
    by_cases hm : i ∈ int_range year_from (year_to + 1)
    · rw [if_pos hm, if_pos (by have := mem_int_range.mp hm; omega)]
    · rw [if_neg hm, if_neg (fun hc => hm (mem_int_range.mpr (by omega)))]
      rfl
  · exact transform_filter_lookup

theorem claim_C3_witness :
    ∃ m, (read_historical_financial_statement fakeApiEnv [] "AAPL"
        "income_statement" 2018 2019 (some ["totalrevenue"])).result = Except.ok m
      ∧ m.lookup 2018 = some [("totalrevenue", (1000 : Int))]
      ∧ m.lookup 2019 = some [("totalrevenue", (1100 : Int))] := by
  have hapi : ∀ i ∈ int_range 2018 (2019 + 1),
      fakeApiEnv.get_fundamental_standardized_financials
        (str_upper "AAPL" ++ "-" ++ "income_statement" ++ "-" ++ Int.repr i ++ "-" ++ "FY") =
      Except.ok ((fun i : Int => if i = 2018 then
          (⟨[⟨⟨"totalrevenue"⟩, 1000⟩, ⟨⟨"other"⟩, 5⟩]⟩ : StatementResponse)
        else ⟨[⟨⟨"totalrevenue"⟩, 1100⟩]⟩) i) := by
    have hr : int_range 2018 (2019 + 1) = [2018, 2019] := by decide
    intro i hi
    rw [hr] at hi
    simp only [List.mem_cons, List.not_mem_nil, or_false] at hi
    rcases hi with rfl | rfl
    · rfl
    · rfl
  obtain ⟨m, h1, _, h3, _⟩ := claim_C3_statement_range_and_filter fakeApiEnv []
    "AAPL" "income_statement" 2018 2019 (some ["totalrevenue"])
    (fun i : Int => if i = 2018 then
        (⟨[⟨⟨"totalrevenue"⟩, 1000⟩, ⟨⟨"other"⟩, 5⟩]⟩ : StatementResponse)
      else ⟨[⟨⟨"totalrevenue"⟩, 1100⟩]⟩)
    (fun _ _ => rfl) hapi
  refine ⟨m, h1, ?_, ?_⟩
  · have h2018 := h3 2018
    rw [if_pos (by omega : (2018 : Int) ≤ 2018 ∧ (2018 : Int) ≤ 2019)] at h2018
    exact h2018.trans (by decide)
  · have h2019 := h3 2019
    rw [if_pos (by omega : (2018 : Int) ≤ 2019 ∧ (2019 : Int) ≤ 2019)] at h2019
    exact h2019.trans (by decide)

/-- Claim C6: if the external fundamentals API fails (ApiException) for
some year of the requested inclusive range — with all earlier years of
the range succeeding, so this is the first error encountered by the
ascending per-year loop — the whole statement retrieval fails with a
`DataError` wrapping that first API error, and no partial per-year
results are returned (results normalized for earlier years are
discarded). -/
theorem claim_C6_abort_on_first_error (env : ApiEnv) (c : FinancialCache)
    (ticker statement_name : String) (year_from year_to i₀ : Int)
    (tag_filter_list : Option (List String)) (em : String)
    (hmiss : ∀ i ∈ int_range year_from (year_to + 1), FinancialCache.read c
      (some (statement_cache_key (str_upper ticker) statement_name "FY" i)) = none)
    (hlo : year_from ≤ i₀) (hhi : i₀ ≤ year_to)
    (hfail : env.get_fundamental_standardized_financials
      (str_upper ticker ++ "-" ++ statement_name ++ "-" ++ Int.repr i₀ ++ "-" ++ "FY") =
      Except.error (PyExn.apiException em))
    (hearlier : ∀ j, year_from ≤ j → j < i₀ → ∃ r,
      env.get_fundamental_standardized_financials
        (str_upper ticker ++ "-" ++ statement_name ++ "-" ++ Int.repr j ++ "-" ++ "FY") =
        Except.ok r) :
    (read_historical_financial_statement env c ticker statement_name year_from
      year_to tag_filter_list).result =
    Except.error (ProviderErr.dataError
      ("Error retrieving (\x27" ++ str_upper ticker ++ "\x27, " ++
        Int.repr year_from ++ " - " ++ Int.repr year_to ++ ") -> \x27" ++
        statement_name ++ "\x27 from Intrinio Fundamentals API")
      (some (PyExn.apiException em))) := by
  have hsplit := int_range_split hlo (by omega : i₀ < year_to + 1)
  obtain ⟨c₁, calls₁, hloop⟩ := stmt_loop_first_error env (str_upper ticker)
    statement_name "FY" tag_filter_list (PyExn.apiException em)
    (int_range year_from i₀) i₀ (int_range (i₀ + 1) (year_to + 1)) c [] 0
    (by rw [← hsplit]; exact hmiss)
    (by rw [← hsplit]; exact int_range_nodup _ _)
    (by
      intro j hj
      have hm := mem_int_range.mp hj
      exact hearlier j hm.1 hm.2)
    hfail
  have hloop' : stmt_loop env (str_upper ticker) statement_name "FY"
      tag_filter_list (int_range year_from (year_to + 1)) c [] 0 =
      (Except.error (PyExn.apiException em), c₁, calls₁) := by
    rw [hsplit]; exact hloop
  simp only [read_historical_financial_statement, hloop']

/-- A fake external API whose fundamentals endpoint succeeds for the
2018 statement and fails for every other statement identifier. -/
def failingStmtEnv : ApiEnv where
  get_security_stock_prices := fakeApiEnv.get_security_stock_prices
  get_company_historical_data := fakeApiEnv.get_company_historical_data
  get_fundamental_standardized_financials := fun sname =>
    if sname = "AAPL-income_statement-2018-FY" then
      Except.ok ⟨[⟨⟨"totalrevenue"⟩, 1000⟩]⟩
    else Except.error (PyExn.apiException "boom")

theorem claim_C6_witness :
    (read_historical_financial_statement failingStmtEnv [] "AAPL"
      "income_statement" 2018 2019 none).result =
    Except.error (ProviderErr.dataError
      ("Error retrieving (\x27" ++ str_upper "AAPL" ++ "\x27, " ++
        Int.repr 2018 ++ " - " ++ Int.repr 2019 ++ ") -> \x27" ++
        "income_statement" ++ "\x27 from Intrinio Fundamentals API")
      (some (PyExn.apiException "boom"))) :=
  claim_C6_abort_on_first_error failingStmtEnv [] "AAPL" "income_statement"
    2018 2019 2019 none "boom" (fun _ _ => rfl) (by omega) (by omega) rfl
    (fun j h1 h2 => by
      have hj : j = 2018 := by omega
      subst hj
      exact ⟨⟨[⟨⟨"totalrevenue"⟩, 1000⟩]⟩, rfl⟩)

/-- Claim C2 counterexample: the concrete closing-price cache key for
ticker `AAPL` and the range 2019-01-01 to 2019-01-02 does not carry any
of the three category tokens immediately after the prefix — the ticker
follows the prefix directly and `closing-prices` comes last — refuting
the claimed grammar `prefix-category-...` for the price key site. -/
theorem claim_C2_counterexample :
    price_cache_key "AAPL" (date_to_string ⟨2019, 1, 1⟩) (date_to_string ⟨2019, 1, 2⟩) =
      "intrinio-AAPL-2019-01-01-2019-01-02-closing-prices"
    ∧ ∀ cat ∈ ["statement", "metric", "closing-prices"],
        (("intrinio-" ++ cat ++ "-").data.isPrefixOf
          (price_cache_key "AAPL" (date_to_string ⟨2019, 1, 1⟩)
            (date_to_string ⟨2019, 1, 2⟩)).data) = false := by
  decide

/-- Claim C2 as amended: every cache key built by the data provider is a
dash-joined token string beginning with the fixed prefix `intrinio`.
The category token sits immediately after the prefix for metric and
statement keys; the closing-price key instead puts the ticker right
after the prefix and the category name `closing-prices` at the end.
The metric key orders frequency before tag, and the statement key has
statement name, period type and year in place of a year-range/tag
pair. -/
theorem claim_C2_amended :
    (∀ (t : String) (d1 d2 : Date),
      price_cache_key t (date_to_string d1) (date_to_string d2) =
        joinDash ["intrinio", t, Nat.repr d1.year, pad2 d1.month, pad2 d1.day,
          Nat.repr d2.year, pad2 d2.month, pad2 d2.day, "closing", "prices"])
    ∧ (∀ (t : String) (y1 y2 : Int) (g : String),
      metric_cache_key t y1 y2 "yearly" g =
        joinDash ["intrinio", "metric", t, Int.repr y1, Int.repr y2, "yearly", g])
    ∧ (∀ (t sn : String) (i : Int),
      statement_cache_key t sn "FY" i =
        joinDash ["intrinio", "statement", t, sn, "FY", Int.repr i]) :=
  ⟨price_key_tokens, fun t y1 y2 g => metric_key_tokens t y1 y2 "yearly" g,
    fun t sn i => statement_key_tokens t sn "FY" i⟩

theorem dashFree_tokens_price (t : String) (d1 d2 : Date) (ht : dashFree t) :
    ∀ s ∈ ["intrinio", t, Nat.repr d1.year, pad2 d1.month, pad2 d1.day,
      Nat.repr d2.year, pad2 d2.month, pad2 d2.day, "closing", "prices"],
      dashFree s := by
  intro s hs
  simp only [List.mem_cons, List.not_mem_nil, or_false] at hs
  rcases hs with rfl | rfl | rfl | rfl | rfl | rfl | rfl | rfl | rfl | rfl
  · decide
  · exact ht
  · exact dashFree_natRepr _
  · exact dashFree_pad2 _
  · exact dashFree_pad2 _
  · exact dashFree_natRepr _
  · exact dashFree_pad2 _
  · exact dashFree_pad2 _
  · decide
  · decide

theorem dashFree_tokens_metric (t : String) (y1 y2 : Int) (g : String)
    (ht : dashFree t) (hg : dashFree g) (h1 : 0 ≤ y1) (h2 : 0 ≤ y2) :
    ∀ s ∈ ["intrinio", "metric", t, Int.repr y1, Int.repr y2, "yearly", g],
      dashFree s := by
  intro s hs
  simp only [List.mem_cons, List.not_mem_nil, or_false] at hs
  rcases hs with rfl | rfl | rfl | rfl | rfl | rfl | rfl
  · decide
  · decide
  · exact ht
  · exact dashFree_intRepr _ h1
  · exact dashFree_intRepr _ h2
  · decide
  · exact hg

theorem dashFree_tokens_statement (t sn : String) (i : Int)
    (ht : dashFree t) (hsn : dashFree sn) (hi : 0 ≤ i) :
    ∀ s ∈ ["intrinio", "statement", t, sn, "FY", Int.repr i], dashFree s := by
  intro s hs
  simp only [List.mem_cons, List.not_mem_nil, or_false] at hs
  rcases hs with rfl | rfl | rfl | rfl | rfl | rfl
  · decide
  · decide
  · exact ht
  · exact hsn
  · decide
  · exact dashFree_intRepr _ hi

/-- Claim C5 counterexample: the metric key builder collides for two
different logical requests: the key for ticker `X-1-2-yearly`, years
3-4, tag `Z` is the very same string as the key for ticker `X`, years
1-2, tag `3-4-yearly-Z` — so distinct tickers, year ranges and tags do
not always produce distinct keys. -/
theorem claim_C5_counterexample :
    metric_cache_key "X-1-2-yearly" 3 4 "yearly" "Z" =
      metric_cache_key "X" 1 2 "yearly" "3-4-yearly-Z"
    ∧ ("X-1-2-yearly" : String) ≠ "X"
    ∧ (3 : Int) ≠ 1 ∧ ("Z" : String) ≠ "3-4-yearly-Z" := by
  decide

/-- Claim C5 as amended: cache keys are deterministic functions of their
inputs, and — provided the ticker, tag and statement-name tokens
contain no dash character, the years are nonnegative, and the date
components are in range — the three key builders are injective and
mutually non-overlapping: equal keys force equal requests within each
site, and keys from different sites are never equal. -/
theorem claim_C5_amended :
    (∀ (t t₁ : String) (d1 d2 e1 e2 : Date),
      dashFree t → dashFree t₁ →
      d1.month ≤ 31 → d1.day ≤ 31 → d2.month ≤ 31 → d2.day ≤ 31 →
      e1.month ≤ 31 → e1.day ≤ 31 → e2.month ≤ 31 → e2.day ≤ 31 →
      price_cache_key t (date_to_string d1) (date_to_string d2) =
        price_cache_key t₁ (date_to_string e1) (date_to_string e2) →
      t = t₁ ∧ d1 = e1 ∧ d2 = e2)
    ∧ (∀ (t t₁ : String) (y1 y2 z1 z2 : Int) (g g₁ : String),
      dashFree t → dashFree t₁ → dashFree g → dashFree g₁ →
      0 ≤ y1 → 0 ≤ y2 → 0 ≤ z1 → 0 ≤ z2 →
      metric_cache_key t y1 y2 "yearly" g = metric_cache_key t₁ z1 z2 "yearly" g₁ →
      t = t₁ ∧ y1 = z1 ∧ y2 = z2 ∧ g = g₁)
    ∧ (∀ (t t₁ sn sn₁ : String) (i j : Int),
      dashFree t → dashFree t₁ → dashFree sn → dashFree sn₁ →
      0 ≤ i → 0 ≤ j →
      statement_cache_key t sn "FY" i = statement_cache_key t₁ sn₁ "FY" j →
      t = t₁ ∧ sn = sn₁ ∧ i = j)
    ∧ (∀ (tp : String) (d1 d2 : Date) (tm : String) (y1 y2 : Int) (g : String),
      dashFree tp → dashFree tm → dashFree g → 0 ≤ y1 → 0 ≤ y2 →
      price_cache_key tp (date_to_string d1) (date_to_string d2) ≠
        metric_cache_key tm y1 y2 "yearly" g)
    ∧ (∀ (tp : String) (d1 d2 : Date) (ts sn : String) (i : Int),
      dashFree tp → dashFree ts → dashFree sn → 0 ≤ i →
      price_cache_key tp (date_to_string d1) (date_to_string d2) ≠
        statement_cache_key ts sn "FY" i)
    ∧ (∀ (tm : String) (y1 y2 : Int) (g ts sn : String) (i : Int),
      dashFree tm → dashFree g → 0 ≤ y1 → 0 ≤ y2 →
      dashFree ts → dashFree sn → 0 ≤ i →
      metric_cache_key tm y1 y2 "yearly" g ≠ statement_cache_key ts sn "FY" i) := by
  refine ⟨?_, ?_, ?_, ?_, ?_, ?_⟩
  · intro t t₁ d1 d2 e1 e2 ht ht₁ hm1 hd1 hm2 hd2 hm3 hd3 hm4 hd4 h
    rw [price_key_tokens, price_key_tokens] at h
    have hl := joinDash_inj _ _ (by simp) (by simp)
      (dashFree_tokens_price t d1 d2 ht) (dashFree_tokens_price t₁ e1 e2 ht₁) h
    simp only [List.cons.injEq, and_true, true_and] at hl
    obtain ⟨hteq, hy1, hmo1, hdy1, hy2, hmo2, hdy2⟩ := hl
    obtain ⟨y1, m1, dd1⟩ := d1
    obtain ⟨y2, m2, dd2⟩ := d2
    obtain ⟨y3, m3, dd3⟩ := e1
    obtain ⟨y4, m4, dd4⟩ := e2
    simp only at hy1 hmo1 hdy1 hy2 hmo2 hdy2 hm1 hd1 hm2 hd2 hm3 hd3 hm4 hd4
    refine ⟨hteq, ?_, ?_⟩
    · simp only [Date.mk.injEq]
      exact ⟨natRepr_inj hy1, pad2_inj _ (by omega) _ (by omega) hmo1,
        pad2_inj _ (by omega) _ (by omega) hdy1⟩
    · simp only [Date.mk.injEq]
      exact ⟨natRepr_inj hy2, pad2_inj _ (by omega) _ (by omega) hmo2,
        pad2_inj _ (by omega) _ (by omega) hdy2⟩
  · intro t t₁ y1 y2 z1 z2 g g₁ ht ht₁ hg hg₁ h1 h2 h3 h4 h
    rw [metric_key_tokens, metric_key_tokens] at h
    have hl := joinDash_inj _ _ (by simp) (by simp)
      (dashFree_tokens_metric t y1 y2 g ht hg h1 h2)
      (dashFree_tokens_metric t₁ z1 z2 g₁ ht₁ hg₁ h3 h4) h
    simp only [List.cons.injEq, and_true, true_and] at hl
    obtain ⟨hteq, hy1, hy2, hgeq⟩ := hl
    exact ⟨hteq, intRepr_inj _ _ hy1, intRepr_inj _ _ hy2, hgeq⟩
  · intro t t₁ sn sn₁ i j ht ht₁ hsn hsn₁ hi hj h
    rw [statement_key_tokens, statement_key_tokens] at h
    have hl := joinDash_inj _ _ (by simp) (by simp)
      (dashFree_tokens_statement t sn i ht hsn hi)
      (dashFree_tokens_statement t₁ sn₁ j ht₁ hsn₁ hj) h
    simp only [List.cons.injEq, and_true, true_and] at hl
    obtain ⟨hteq, hsneq, hieq⟩ := hl
    exact ⟨hteq, hsneq, intRepr_inj _ _ hieq⟩
  · intro tp d1 d2 tm y1 y2 g htp htm hg h1 h2 h
    rw [price_key_tokens, metric_key_tokens] at h
    have hl := joinDash_inj _ _ (by simp) (by simp)
      (dashFree_tokens_price tp d1 d2 htp)
      (dashFree_tokens_metric tm y1 y2 g htm hg h1 h2) h
    have hlen := congrArg List.length hl
    simp at hlen
  · intro tp d1 d2 ts sn i htp hts hsn hi h
    rw [price_key_tokens, statement_key_tokens] at h
    have hl := joinDash_inj _ _ (by simp) (by simp)
      (dashFree_tokens_price tp d1 d2 htp)
      (dashFree_tokens_statement ts sn i hts hsn hi) h
    have hlen := congrArg List.length hl
    simp at hlen
  · intro tm y1 y2 g ts sn i htm hg h1 h2 hts hsn hi h
    rw [metric_key_tokens, statement_key_tokens] at h
    have hl := joinDash_inj _ _ (by simp) (by simp)
      (dashFree_tokens_metric tm y1 y2 g htm hg h1 h2)
      (dashFree_tokens_statement ts sn i hts hsn hi) h
    have hlen := congrArg List.length hl
    simp at hlen

theorem claim_C5_witness :
    dashFree "AAPL" ∧ (2018 : Int) = 2018 :=
  ⟨by decide,
    (claim_C5_amended.2.1 "AAPL" "AAPL" 2018 2019 2018 2019 "totalrevenue"
      "totalrevenue" (by decide) (by decide) (by decide) (by decide)
      (by decide) (by decide) (by decide) (by decide) rfl).2.1⟩
